import Mathlib

/-!
# Verification of the fairly offline-first write-queue and sync engine

Shallow embedding of the offline subsystem of the fairly repository:

* `OfflineStorage` (source: the storage class exported as `offlineStorage`):
  localStorage-backed cache of documents, operation queue, last-sync marker,
  and the storage-usage estimate (`getStorageInfo`).
* `OfflineSyncService.syncOfflineOperations` (source: `src/lib/offlineSync.ts`):
  the sync pass that drains the queue against the remote store with the
  retry ceiling of 3.
* `OfflineDataService` (`createDocument`, `getDocument`, `updateDocument`,
  `deleteDocument`): the offline-first data facade.

JavaScript objects are modelled as association lists of fields (`JObj`) over a
value type `JVal`; object spread `\x7b...a, ...b\x7d` is modelled by `spreadObj`,
which assigns the fields of `b` over a copy of `a` in order, as JS does.
The remote store (Firestore) is modelled as a keyed document map with an
`online` flag (when `false`, every remote primitive throws, which is how the
"remote application always fails" scenarios are realised) and a trace `log`
of every remote call attempted, used to state ordering and retry-count
properties.  Timestamps are integers; `Date.now()` and the generated random
ids (`nanoid`, Firestore document ids, the random suffix of temporary ids)
are passed to each modelled function as explicit parameters.
-/

/-- A JavaScript value as stored in the offline cache: string, number,
boolean, Firestore `Timestamp`, the `serverTimestamp()` sentinel, a nested
object, or an array. -/
inductive JVal where
  | str : String → JVal
  | num : Int → JVal
  | boolVal : Bool → JVal
  | tsVal : Int → JVal
  | serverTs : JVal
  | obj : List (String × JVal) → JVal
  | arr : List JVal → JVal

/-- A JavaScript object: an ordered association list of fields. -/
abbrev JObj := List (String × JVal)

/-- Overwrite-or-append assignment `m[k] = v` on an association list, keeping
the position of an existing key (as JS property assignment does; JS object
keys are unique, so replacing the first occurrence is the JS behavior). -/
def setAssoc {κ α : Type} [BEq κ] : List (κ × α) → κ → α → List (κ × α)
  | [], k, v => [(k, v)]
  | p :: m, k, v => if p.1 == k then (k, v) :: m else p :: setAssoc m k v

/-- Key deletion `delete m[k]` on an association list. -/
def removeAssoc {κ α : Type} [BEq κ] (m : List (κ × α)) (k : κ) :
    List (κ × α) :=
  m.filter (fun p => !(p.1 == k))

/-- JS object spread `\x7b...a, ...b\x7d`: start from `a` and assign each field of
`b` in order. -/
def spreadObj (a b : JObj) : JObj :=
  b.foldl (fun acc kv => setAssoc acc kv.1 kv.2) a

/-- JS strict equality `===` as used in `exp.id === data.id` when matching a
cached expense: `undefined === undefined` is `true`, primitives compare by
value, and objects/arrays compare by reference (here always `false`, because
the two sides come from distinct allocations). -/
def jsIdEq : Option JVal → Option JVal → Bool
  | none, none => true
  | some (JVal.str a), some (JVal.str b) => a == b
  | some (JVal.num a), some (JVal.num b) => a == b
  | some (JVal.boolVal a), some (JVal.boolVal b) => a == b
  | _, _ => false

/-- The type tag of a queued operation (source: `OfflineOperation["type"]`). -/
inductive OpType where
  | create
  | update
  | delete
deriving DecidableEq

/-- A queued offline operation (source: interface `OfflineOperation`). -/
structure OfflineOperation where
  id : String
  type : OpType
  collection : String
  documentId : Option String
  data : Option JObj
  timestamp : Int
  retryCount : Nat

/-- The offline data blob (source: interface `OfflineData`): cached groups and
users keyed by document id, cached expenses keyed by group id (each key holds
a list of expense objects), and a `lastSync` field. -/
structure OfflineData where
  groups : List (String × JObj)
  expenses : List (String × List JObj)
  users : List (String × JObj)
  lastSync : Int

/-- The default offline data returned when nothing is stored. -/
def emptyOfflineData : OfflineData :=
  { groups := [], expenses := [], users := [], lastSync := 0 }

/-- The localStorage-backed state of the `OfflineStorage` class: the
availability of localStorage, the parsed offline-data blob, the operation
queue, and the separately keyed last-sync item. -/
structure Storage where
  available : Bool
  offlineData : OfflineData
  queue : List OfflineOperation
  lastSyncItem : Option Int

/-- `getOfflineData`: returns the stored blob, or the empty default when
storage is unavailable. -/
def Storage.getOfflineData (s : Storage) : OfflineData :=
  if s.available then s.offlineData else emptyOfflineData

/-- `saveOfflineData`: persists the blob; a no-op when storage is
unavailable.  The source merges the argument over the current blob, but every
caller passes a complete `OfflineData`, so the merge is a full replacement. -/
def Storage.saveOfflineData (s : Storage) (d : OfflineData) : Storage :=
  if s.available then { s with offlineData := d } else s

/-- The pure part of `cacheDocument` acting on the offline-data blob: groups
and users store `\x7b...data, id, _cachedAt\x7d` under the document id; expenses
treat the id as a group key and replace or append within the stored list,
matching entries by `exp.id === data.id`; any other collection is ignored. -/
def cacheDocInData (d : OfflineData) (c i : String) (payload : JObj)
    (now : Int) : OfflineData :=
  if c = "groups" then
    let v := spreadObj payload [("id", JVal.str i), ("_cachedAt", JVal.num now)]
    { d with groups := setAssoc d.groups i v }
  else if c = "expenses" then
    let l := (d.expenses.lookup i).getD []
    let entry := spreadObj payload [("_cachedAt", JVal.num now)]
    let newList :=
      match l.findIdx? (fun e => jsIdEq (e.lookup "id") (payload.lookup "id")) with
      | some idx => l.set idx entry
      | none => l ++ [entry]
    { d with expenses := setAssoc d.expenses i newList }
  else if c = "users" then
    let v := spreadObj payload [("id", JVal.str i), ("_cachedAt", JVal.num now)]
    { d with users := setAssoc d.users i v }
  else d

/-- `cacheDocument(collection, id, data)` on the storage layer. -/
def Storage.cacheDocument (s : Storage) (c i : String) (payload : JObj)
    (now : Int) : Storage :=
  s.saveOfflineData (cacheDocInData s.getOfflineData c i payload now)

/-- The pure part of `getCachedDocument`: groups and users yield the stored
object, expenses yield the stored list as an array value, any other
collection yields `null`. -/
def getCachedInData (d : OfflineData) (c i : String) : Option JVal :=
  if c = "groups" then (d.groups.lookup i).map JVal.obj
  else if c = "expenses" then
    (d.expenses.lookup i).map (fun l => JVal.arr (l.map JVal.obj))
  else if c = "users" then (d.users.lookup i).map JVal.obj
  else none

/-- `getCachedDocument(collection, id)` on the storage layer. -/
def Storage.getCachedDocument (s : Storage) (c i : String) : Option JVal :=
  getCachedInData s.getOfflineData c i

/-- The pure part of `removeCachedDocument`. -/
def removeCachedInData (d : OfflineData) (c i : String) : OfflineData :=
  if c = "groups" then { d with groups := removeAssoc d.groups i }
  else if c = "expenses" then { d with expenses := removeAssoc d.expenses i }
  else if c = "users" then { d with users := removeAssoc d.users i }
  else d

/-- `removeCachedDocument(collection, id)` on the storage layer. -/
def Storage.removeCachedDocument (s : Storage) (c i : String) : Storage :=
  s.saveOfflineData (removeCachedInData s.getOfflineData c i)

/-- `getOperationQueue()`: the stored queue, or `[]` when storage is
unavailable. -/
def Storage.getOperationQueue (s : Storage) : List OfflineOperation :=
  if s.available then s.queue else []

/-- `addToQueue(operation)`: appends a new operation with a generated id
(`nanoid`, passed as `opId`), the current timestamp and `retryCount = 0`;
a no-op when storage is unavailable. -/
def Storage.addToQueue (s : Storage) (t : OpType) (c : String)
    (docId : Option String) (d : Option JObj) (opId : String) (now : Int) :
    Storage :=
  if s.available then
    let newOp : OfflineOperation :=
      { id := opId, type := t, collection := c, documentId := docId,
        data := d, timestamp := now, retryCount := 0 }
    { s with queue := s.getOperationQueue ++ [newOp] }
  else s

/-- `removeFromQueue(operationId)`: filters the stored queue by id. -/
def Storage.removeFromQueue (s : Storage) (opId : String) : Storage :=
  if s.available then
    let q := s.getOperationQueue.filter (fun op => !(op.id == opId))
    { s with queue := q }
  else s

/-- `updateOperationRetry(operationId, retryCount)`: maps the stored queue,
updating the retry count of the matching operation. -/
def Storage.updateOperationRetry (s : Storage) (opId : String) (rc : Nat) :
    Storage :=
  if s.available then
    let q := s.getOperationQueue.map
      (fun op => if op.id == opId then { op with retryCount := rc } else op)
    { s with queue := q }
  else s

/-- `setLastSync(timestamp)`: stores the last-sync marker. -/
def Storage.setLastSync (s : Storage) (t : Int) : Storage :=
  if s.available then { s with lastSyncItem := some t } else s

/-- `getLastSync()`: the stored marker, or `0` when absent or storage is
unavailable. -/
def Storage.getLastSync (s : Storage) : Int :=
  if s.available then (s.lastSyncItem.getD 0) else 0

/-- The four fixed localStorage keys (source: `STORAGE_KEYS`). -/
def storageKeyList : List String :=
  ["fairly_offline_data", "fairly_operation_queue",
   "fairly_network_status", "fairly_last_sync"]

/-- The result of `getStorageInfo()`.  The percentage is modelled as an exact
rational; the source computes it in floating point, which agrees exactly on
the cases stated here. -/
structure StorageInfo where
  used : Nat
  available : Nat
  percentage : Rat
deriving DecidableEq

/-- `getStorageInfo()`, modelled over the raw localStorage contents (a map
from key to serialized string): sums the byte sizes (`new Blob([item]).size`,
i.e. UTF-8 byte length) of the items stored under the four fixed keys against
the fixed 5 MiB estimate. -/
def getStorageInfo (items : List (String × String))
    (storageAvailable : Bool) : StorageInfo :=
  if storageAvailable then
    let used := (storageKeyList.map (fun k =>
      match items.lookup k with
      | some s => s.utf8ByteSize
      | none => 0)).sum
    { used := used,
      available := 5 * 1024 * 1024,
      percentage := (used : Rat) / ((5 * 1024 * 1024 : Nat) : Rat) * 100 }
  else
    { used := 0, available := 0, percentage := 0 }

/-- One call attempted against the remote store (Firestore): `addDoc`,
`getDoc`, `updateDoc` or `deleteDoc`.  The sync-ordering and retry-count
claims are stated over the trace of these calls. -/
inductive RemoteCall where
  | add : String → JObj → RemoteCall
  | get : String → String → RemoteCall
  | upd : String → String → JObj → RemoteCall
  | del : String → String → RemoteCall

/-- The remote document store: documents keyed by (collection, id), a counter
for generated document ids, an `online` flag (when `false` every call
throws, modelling an unreachable backend), and the trace of attempted
calls. -/
structure Remote where
  docs : List ((String × String) × JObj)
  nextId : Nat
  online : Bool
  log : List RemoteCall

/-- `addDoc(collection(ref), data)`: assigns a fresh id and stores the
document; throws (`none`) when offline. -/
def Remote.addDoc (r : Remote) (c : String) (d : JObj) :
    Option String × Remote :=
  let r1 := { r with log := r.log ++ [RemoteCall.add c d] }
  if r.online then
    let newId := "remote_" ++ toString r.nextId
    (some newId,
      { r1 with docs := setAssoc r1.docs (c, newId) d, nextId := r.nextId + 1 })
  else (none, r1)

/-- `getDoc(doc(ref))`: returns the document when present (`some (some d)`),
`some none` when absent, and throws (`none`) when offline. -/
def Remote.getDoc (r : Remote) (c i : String) :
    Option (Option JObj) × Remote :=
  let r1 := { r with log := r.log ++ [RemoteCall.get c i] }
  if r.online then (some (r.docs.lookup (c, i)), r1) else (none, r1)

/-- `updateDoc(ref, patch)`: merges the patch into an existing document,
failing when the document is absent or the store is offline. -/
def Remote.updateDoc (r : Remote) (c i : String) (d : JObj) :
    Option Unit × Remote :=
  let r1 := { r with log := r.log ++ [RemoteCall.upd c i d] }
  if r.online then
    match r.docs.lookup (c, i) with
    | some old => (some (), { r1 with docs := setAssoc r1.docs (c, i) (spreadObj old d) })
    | none => (none, r1)
  else (none, r1)

/-- `deleteDoc(ref)`: removes the document; idempotent on absent documents;
throws when offline. -/
def Remote.deleteDoc (r : Remote) (c i : String) : Option Unit × Remote :=
  let r1 := { r with log := r.log ++ [RemoteCall.del c i] }
  if r.online then (some (), { r1 with docs := removeAssoc r1.docs (c, i) })
  else (none, r1)

/-- `processCreateOperation`: throws when the operation has no data,
otherwise creates the document remotely and caches it under the newly
assigned id.  The boolean result is `true` on success; on failure the side
effects performed before the throw are kept, as in JS. -/
def processCreateOperation (now : Int) (op : OfflineOperation) (s : Storage)
    (r : Remote) : Bool × Storage × Remote :=
  match op.data with
  | none => (false, s, r)
  | some d =>
    match r.addDoc op.collection d with
    | (some newId, r1) =>
      let s1 := s.cacheDocument op.collection newId
        (spreadObj d [("id", JVal.str newId)]) now
      (true, s1, r1)
    | (none, r1) => (false, s, r1)

/-- Spreading a cached value into an object literal, as
`\x7b...cachedData, ...data\x7d` does: an object contributes its fields, an array
contributes its elements under numeric-string keys. -/
def jvalToSpreadObj : JVal → JObj
  | JVal.obj o => o
  | JVal.arr l => l.enum.map (fun p => (toString p.1, p.2))
  | _ => []

/-- `processUpdateOperation`: throws when the operation has no document id;
reads the remote document first and throws when it is absent; applies the
remote update; then merges the patch into the cached document when one is
cached. -/
def processUpdateOperation (now : Int) (op : OfflineOperation) (s : Storage)
    (r : Remote) : Bool × Storage × Remote :=
  match op.documentId with
  | none => (false, s, r)
  | some docId =>
    match r.getDoc op.collection docId with
    | (none, r1) => (false, s, r1)
    | (some none, r1) => (false, s, r1)
    | (some (some _), r1) =>
      match r1.updateDoc op.collection docId (op.data.getD []) with
      | (none, r2) => (false, s, r2)
      | (some _, r2) =>
        match op.data with
        | none => (true, s, r2)
        | some d =>
          match s.getCachedDocument op.collection docId with
          | none => (true, s, r2)
          | some cached =>
            let s1 := s.cacheDocument op.collection docId
              (spreadObj (jvalToSpreadObj cached) d) now
            (true, s1, r2)

/-- `processDeleteOperation`: throws when the operation has no document id;
when the remote document is already absent, the operation is a success and
only the cache entry is removed; otherwise the remote document is deleted
and the cache entry removed. -/
def processDeleteOperation (op : OfflineOperation) (s : Storage)
    (r : Remote) : Bool × Storage × Remote :=
  match op.documentId with
  | none => (false, s, r)
  | some docId =>
    match r.getDoc op.collection docId with
    | (none, r1) => (false, s, r1)
    | (some none, r1) => (true, s.removeCachedDocument op.collection docId, r1)
    | (some (some _), r1) =>
      match r1.deleteDoc op.collection docId with
      | (none, r2) => (false, s, r2)
      | (some _, r2) => (true, s.removeCachedDocument op.collection docId, r2)

/-- `processOperation`: dispatch on the operation type. -/
def processOperation (now : Int) (op : OfflineOperation) (s : Storage)
    (r : Remote) : Bool × Storage × Remote :=
  match op.type with
  | OpType.create => processCreateOperation now op s r
  | OpType.update => processUpdateOperation now op s r
  | OpType.delete => processDeleteOperation op s r

/-- The loop body of `syncOfflineOperations` over the queue snapshot: on
success the operation is removed from the stored queue; on failure its retry
count is incremented and it is removed once the new count reaches 3.  The
two counters are `successCount` and `errorCount`. -/
def syncLoop (now : Int) :
    List OfflineOperation → Storage → Remote → Nat → Nat →
    Storage × Remote × Nat × Nat
  | [], s, r, sc, ec => (s, r, sc, ec)
  | op :: rest, s, r, sc, ec =>
    match processOperation now op s r with
    | (true, s1, r1) => syncLoop now rest (s1.removeFromQueue op.id) r1 (sc + 1) ec
    | (false, s1, r1) =>
      let nrc := op.retryCount + 1
      let s2 := s1.updateOperationRetry op.id nrc
      let s3 := if nrc ≥ 3 then s2.removeFromQueue op.id else s2
      syncLoop now rest s3 r1 sc (ec + 1)

/-- The full state the sync engine and the data facade act on: storage,
remote store, and the re-entrancy guard `isSyncing`. -/
structure SysState where
  storage : Storage
  remote : Remote
  isSyncing : Bool

/-- `syncOfflineOperations()`: a no-op when a sync is already in progress or
the queue is empty; otherwise drains the queue snapshot and finally stores
the last-sync timestamp (one ambient `now` stands for the times sampled
during the pass).  Also returns the pass summary (successCount,
errorCount). -/
def syncOfflineOperations (st : SysState) (now : Int) :
    SysState × Nat × Nat :=
  if st.isSyncing then (st, 0, 0)
  else
    let queue := st.storage.getOperationQueue
    if queue.isEmpty then (st, 0, 0)
    else
      match syncLoop now queue st.storage st.remote 0 0 with
      | (s1, r1, sc, ec) =>
        ({ storage := s1.setLastSync now, remote := r1, isSyncing := false },
         sc, ec)

/-- Iterates sync passes at the given sequence of times, discarding the
per-pass summaries. -/
def runPasses (st : SysState) : List Int → SysState
  | [] => st
  | t :: ts => runPasses (syncOfflineOperations st t).1 ts

/-- Model of `new Date(now).toISOString()`: an injective rendering of the
timestamp.  The exact ISO format is irrelevant to every claim. -/
def isoOf (t : Int) : String := "ISO:" ++ toString t

/-- The temporary id generated by the offline create path:
`temp_` + Date.now() + `_` + random token. -/
def tempIdOf (now : Int) (tok : String) : String :=
  "temp_" ++ toString now ++ "_" ++ tok

mutual

/-- `convertFirestoreData`: primitives pass through, Firestore timestamps
become ISO strings, arrays and objects are converted recursively. -/
def convertFirestoreData : JVal → JVal
  | JVal.tsVal t => JVal.str (isoOf t)
  | JVal.obj fs => JVal.obj (convertFields fs)
  | JVal.arr l => JVal.arr (convertList l)
  | v => v

/-- Recursive conversion of an array of values. -/
def convertList : List JVal → List JVal
  | [] => []
  | v :: vs => convertFirestoreData v :: convertList vs

/-- Recursive conversion of the fields of an object. -/
def convertFields : List (String × JVal) → List (String × JVal)
  | [] => []
  | (k, v) :: fs => (k, convertFirestoreData v) :: convertFields fs

end

/-- `createDocument(collectionName, data)` of the data facade.  When online
it attempts the remote create (`\x7b...data, createdAt: serverTimestamp()\x7d`) and
caches the result under the assigned id; on remote failure, or when offline,
it caches the document under a temporary id with the `_isOffline` marker and
queues a CREATE operation, returning the temporary id. -/
def createDocument (st : SysState) (online : Bool) (c : String) (d : JObj)
    (now : Int) (tok opId : String) : String × SysState :=
  let offlinePath : SysState → String × SysState := fun st0 =>
    let tid := tempIdOf now tok
    let cachePayload := spreadObj d
      [("id", JVal.str tid), ("createdAt", JVal.str (isoOf now)),
       ("_isOffline", JVal.boolVal true)]
    let s1 := st0.storage.cacheDocument c tid cachePayload now
    let queueData := spreadObj d [("createdAt", JVal.str (isoOf now))]
    let s2 := s1.addToQueue OpType.create c none (some queueData) opId now
    (tid, { st0 with storage := s2 })
  if online then
    match st.remote.addDoc c (spreadObj d [("createdAt", JVal.serverTs)]) with
    | (some newId, r1) =>
      let cachePayload := spreadObj d
        [("id", JVal.str newId), ("createdAt", JVal.str (isoOf now))]
      let s1 := st.storage.cacheDocument c newId cachePayload now
      (newId, { st with storage := s1, remote := r1 })
    | (none, r1) => offlinePath { st with remote := r1 }
  else offlinePath st

/-- `getDocument(collectionName, documentId)` of the data facade: reads the
cache first; when online it attempts a fresh remote read, and only when the
remote document exists does it overwrite the cache and return the fresh
value (`\x7b id: docSnap.id, ...convertFirestoreData(docSnap.data()) \x7d`); in
every other case (offline, remote throw, remote document absent) it returns
the previously cached value. -/
def getDocument (st : SysState) (online : Bool) (c i : String) (now : Int) :
    Option JVal × SysState :=
  let cached := st.storage.getCachedDocument c i
  if online then
    match st.remote.getDoc c i with
    | (none, r1) => (cached, { st with remote := r1 })
    | (some none, r1) => (cached, { st with remote := r1 })
    | (some (some d), r1) =>
      let dd := spreadObj [("id", JVal.str i)] (convertFields d)
      let s1 := st.storage.cacheDocument c i dd now
      (some (JVal.obj dd), { st with storage := s1, remote := r1 })
  else (cached, st)

/-- `updateDocument(collectionName, documentId, updates)` of the data
facade: merges the patch into the cached document immediately (optimistic),
then attempts the remote update when online; on remote failure or offline it
queues an UPDATE operation carrying the patch. -/
def updateDocument (st : SysState) (online : Bool) (c i : String)
    (updates : JObj) (now : Int) (opId : String) : SysState :=
  let s0 :=
    match st.storage.getCachedDocument c i with
    | some cached =>
      let merged := spreadObj (spreadObj (jvalToSpreadObj cached) updates)
        [("updatedAt", JVal.str (isoOf now))]
      st.storage.cacheDocument c i merged now
    | none => st.storage
  let queueData := spreadObj updates [("updatedAt", JVal.str (isoOf now))]
  if online then
    match st.remote.updateDoc c i (spreadObj updates [("updatedAt", JVal.serverTs)]) with
    | (some _, r1) => { st with storage := s0, remote := r1 }
    | (none, r1) =>
      let s1 := s0.addToQueue OpType.update c (some i) (some queueData) opId now
      { st with storage := s1, remote := r1 }
  else
    let s1 := s0.addToQueue OpType.update c (some i) (some queueData) opId now
    { st with storage := s1 }

/-- `deleteDocument(collectionName, documentId)` of the data facade: removes
the cached entry immediately, then attempts the remote delete when online;
on remote failure or offline it queues a DELETE operation. -/
def deleteDocument (st : SysState) (online : Bool) (c i : String)
    (now : Int) (opId : String) : SysState :=
  let s0 := st.storage.removeCachedDocument c i
  if online then
    match st.remote.deleteDoc c i with
    | (some _, r1) => { st with storage := s0, remote := r1 }
    | (none, r1) =>
      let s1 := s0.addToQueue OpType.delete c (some i) none opId now
      { st with storage := s1, remote := r1 }
  else
    let s1 := s0.addToQueue OpType.delete c (some i) none opId now
    { st with storage := s1 }

theorem lookup_setAssoc_self {κ α : Type} [BEq κ] [LawfulBEq κ]
    (m : List (κ × α)) (k : κ) (v : α) :
    (setAssoc m k v).lookup k = some v := by
  induction m with
  | nil => simp [setAssoc, List.lookup]
  | cons p m ih =>
    by_cases hp : p.1 = k
    · simp [setAssoc, hp, List.lookup]
    · have h1 : (p.1 == k) = false := beq_eq_false_iff_ne.mpr hp
      have h2 : (k == p.1) = false := beq_eq_false_iff_ne.mpr (Ne.symm hp)
      simp [setAssoc, h1, List.lookup, h2, ih]

theorem lookup_setAssoc_ne {κ α : Type} [BEq κ] [LawfulBEq κ]
    (m : List (κ × α)) (k k1 : κ) (v : α) (h : k1 ≠ k) :
    (setAssoc m k v).lookup k1 = m.lookup k1 := by
  induction m with
  | nil =>
    have h2 : (k1 == k) = false := beq_eq_false_iff_ne.mpr h
    simp [setAssoc, List.lookup, h2]
  | cons p m ih =>
    by_cases hp : p.1 = k
    · subst hp
      have h2 : (k1 == p.1) = false := beq_eq_false_iff_ne.mpr h
      simp [setAssoc, List.lookup, h2]
    · have h1 : (p.1 == k) = false := beq_eq_false_iff_ne.mpr hp
      by_cases hq : (k1 == p.1)
      · simp [setAssoc, h1, List.lookup, hq]
      · simp only [Bool.not_eq_true] at hq
        simp [setAssoc, h1, List.lookup, hq, ih]

theorem lookup_setAssoc_isSome {κ α : Type} [BEq κ] [LawfulBEq κ]
    (m : List (κ × α)) (k k1 : κ) (v : α)
    (h : (m.lookup k1).isSome = true) :
    ((setAssoc m k v).lookup k1).isSome = true := by
  by_cases hk : k1 = k
  · subst hk
    simp [lookup_setAssoc_self]
  · rw [lookup_setAssoc_ne m k k1 v hk]
    exact h

theorem lookup_removeAssoc_self {κ α : Type} [BEq κ] [LawfulBEq κ]
    (m : List (κ × α)) (k : κ) :
    (removeAssoc m k).lookup k = none := by
  unfold removeAssoc
  induction m with
  | nil => simp
  | cons p m ih =>
    by_cases hp : p.1 = k
    · subst hp
      simp [List.filter, ih]
    · have h1 : (p.1 == k) = false := beq_eq_false_iff_ne.mpr hp
      have h2 : (k == p.1) = false := beq_eq_false_iff_ne.mpr (Ne.symm hp)
      simp [List.filter, h1, List.lookup, h2, ih]

theorem lookup_removeAssoc_ne {κ α : Type} [BEq κ] [LawfulBEq κ]
    (m : List (κ × α)) (k k1 : κ) (h : k1 ≠ k) :
    (removeAssoc m k).lookup k1 = m.lookup k1 := by
  unfold removeAssoc
  induction m with
  | nil => simp
  | cons p m ih =>
    by_cases hp : p.1 = k
    · subst hp
      have h2 : (k1 == p.1) = false := beq_eq_false_iff_ne.mpr h
      simp [List.filter, List.lookup, h2, ih]
    · have h1 : (p.1 == k) = false := beq_eq_false_iff_ne.mpr hp
      by_cases hq : (k1 == p.1)
      · simp [List.filter, h1, List.lookup, hq]
      · simp only [Bool.not_eq_true] at hq
        simp [List.filter, h1, List.lookup, hq, ih]

theorem spreadObj_nil (a : JObj) : spreadObj a [] = a := rfl

theorem spreadObj_cons (a : JObj) (kv : String × JVal) (b : JObj) :
    spreadObj a (kv :: b) = spreadObj (setAssoc a kv.1 kv.2) b := rfl

theorem lookup_spreadObj_not_mem (a b : JObj) (k : String)
    (h : ∀ kv ∈ b, kv.1 ≠ k) :
    (spreadObj a b).lookup k = a.lookup k := by
  induction b generalizing a with
  | nil => rfl
  | cons kv b ih =>
    rw [spreadObj_cons]
    rw [ih _ (fun x hx => h x (List.mem_cons_of_mem kv hx))]
    exact lookup_setAssoc_ne a kv.1 k kv.2
      (fun he => h kv (List.mem_cons_self kv b) (he ▸ rfl))

theorem cacheDocument_queue (s : Storage) (c i : String) (p : JObj) (now : Int) :
    (s.cacheDocument c i p now).queue = s.queue := by
  unfold Storage.cacheDocument Storage.saveOfflineData
  split <;> rfl

theorem cacheDocument_available (s : Storage) (c i : String) (p : JObj) (now : Int) :
    (s.cacheDocument c i p now).available = s.available := by
  unfold Storage.cacheDocument Storage.saveOfflineData
  split <;> rfl

theorem cacheDocument_lastSyncItem (s : Storage) (c i : String) (p : JObj) (now : Int) :
    (s.cacheDocument c i p now).lastSyncItem = s.lastSyncItem := by
  unfold Storage.cacheDocument Storage.saveOfflineData
  split <;> rfl

theorem removeCachedDocument_queue (s : Storage) (c i : String) :
    (s.removeCachedDocument c i).queue = s.queue := by
  unfold Storage.removeCachedDocument Storage.saveOfflineData
  split <;> rfl

theorem removeCachedDocument_available (s : Storage) (c i : String) :
    (s.removeCachedDocument c i).available = s.available := by
  unfold Storage.removeCachedDocument Storage.saveOfflineData
  split <;> rfl

theorem removeCachedDocument_lastSyncItem (s : Storage) (c i : String) :
    (s.removeCachedDocument c i).lastSyncItem = s.lastSyncItem := by
  unfold Storage.removeCachedDocument Storage.saveOfflineData
  split <;> rfl

theorem removeFromQueue_available (s : Storage) (j : String) :
    (s.removeFromQueue j).available = s.available := by
  unfold Storage.removeFromQueue
  split <;> rfl

theorem removeFromQueue_offlineData (s : Storage) (j : String) :
    (s.removeFromQueue j).offlineData = s.offlineData := by
  unfold Storage.removeFromQueue
  split <;> rfl

theorem updateOperationRetry_available (s : Storage) (j : String) (rc : Nat) :
    (s.updateOperationRetry j rc).available = s.available := by
  unfold Storage.updateOperationRetry
  split <;> rfl

theorem updateOperationRetry_offlineData (s : Storage) (j : String) (rc : Nat) :
    (s.updateOperationRetry j rc).offlineData = s.offlineData := by
  unfold Storage.updateOperationRetry
  split <;> rfl

theorem setLastSync_available (s : Storage) (t : Int) :
    (s.setLastSync t).available = s.available := by
  unfold Storage.setLastSync
  split <;> rfl

theorem setLastSync_queue (s : Storage) (t : Int) :
    (s.setLastSync t).queue = s.queue := by
  unfold Storage.setLastSync
  split <;> rfl

theorem addDoc_online (r : Remote) (c : String) (d : JObj) :
    (r.addDoc c d).2.online = r.online := by
  unfold Remote.addDoc
  split <;> rfl

theorem getDoc_online (r : Remote) (c i : String) :
    (r.getDoc c i).2.online = r.online := by
  unfold Remote.getDoc
  split <;> rfl

theorem updateDoc_online (r : Remote) (c i : String) (d : JObj) :
    (r.updateDoc c i d).2.online = r.online := by
  unfold Remote.updateDoc
  split <;> (try split) <;> rfl

theorem deleteDoc_online (r : Remote) (c i : String) :
    (r.deleteDoc c i).2.online = r.online := by
  unfold Remote.deleteDoc
  split <;> rfl

/-- The remote calls a failing operation attempts against an unreachable
remote store during one sync pass: a create with data attempts its `addDoc`,
an update or delete with a document id attempts the existence `getDoc`; a
malformed operation throws before reaching the remote store. -/
def offlineCalls (op : OfflineOperation) : List RemoteCall :=
  match op.type with
  | OpType.create =>
    match op.data with
    | some d => [RemoteCall.add op.collection d]
    | none => []
  | OpType.update =>
    match op.documentId with
    | some i => [RemoteCall.get op.collection i]
    | none => []
  | OpType.delete =>
    match op.documentId with
    | some i => [RemoteCall.get op.collection i]
    | none => []

theorem processOperation_offline (now : Int) (op : OfflineOperation)
    (s : Storage) (r : Remote) (h : r.online = false) :
    processOperation now op s r =
      (false, s, { r with log := r.log ++ offlineCalls op }) := by
  rcases op with ⟨oid, ty, c, docId, dat, ts, rc⟩
  cases ty
  case create =>
    cases dat with
    | none => simp [processOperation, processCreateOperation, offlineCalls]
    | some d =>
      simp [processOperation, processCreateOperation, offlineCalls,
        Remote.addDoc, h]
  case update =>
    cases docId with
    | none => simp [processOperation, processUpdateOperation, offlineCalls]
    | some i =>
      simp [processOperation, processUpdateOperation, offlineCalls,
        Remote.getDoc, h]
  case delete =>
    cases docId with
    | none => simp [processOperation, processDeleteOperation, offlineCalls]
    | some i =>
      simp [processOperation, processDeleteOperation, offlineCalls,
        Remote.getDoc, h]

/-- The effect of one failed operation on the stored queue: increment the
retry count of the matching entry and remove it once the new count reaches
the ceiling of 3. -/
def applyFailStep (s : Storage) (op : OfflineOperation) : Storage :=
  let s2 := s.updateOperationRetry op.id (op.retryCount + 1)
  if op.retryCount + 1 ≥ 3 then s2.removeFromQueue op.id else s2

theorem syncLoop_offline (now : Int) (S : List OfflineOperation)
    (s : Storage) (r : Remote) (sc ec : Nat) (h : r.online = false) :
    syncLoop now S s r sc ec =
      (S.foldl applyFailStep s,
       { r with log := r.log ++ S.flatMap offlineCalls }, sc,
       ec + S.length) := by
  induction S generalizing s r sc ec with
  | nil => simp [syncLoop]
  | cons op rest ih =>
    have hp := processOperation_offline now op s r h
    have hon : ({ r with log := r.log ++ offlineCalls op } : Remote).online = false := h
    simp only [syncLoop, hp]
    rw [ih _ _ _ _ hon]
    simp [applyFailStep, List.append_assoc]
    omega

/-- What one all-fail pass does to one queued operation: bump its retry count
and drop it once the bumped count reaches the ceiling of 3. -/
def bumpDrop (op : OfflineOperation) : Option OfflineOperation :=
  if op.retryCount + 1 ≥ 3 then none
  else some { op with retryCount := op.retryCount + 1 }

theorem map_noop {α : Type} (l : List α) (f : α → α)
    (h : ∀ a ∈ l, f a = a) : l.map f = l := by
  induction l with
  | nil => rfl
  | cons a l ih =>
    simp only [List.map_cons, h a (List.mem_cons_self a l)]
    rw [ih (fun x hx => h x (List.mem_cons_of_mem a hx))]

theorem filter_noop {α : Type} (l : List α) (p : α → Bool)
    (h : ∀ a ∈ l, p a = true) : l.filter p = l := by
  induction l with
  | nil => rfl
  | cons a l ih =>
    simp only [List.filter_cons, h a (List.mem_cons_self a l), if_true]
    rw [ih (fun x hx => h x (List.mem_cons_of_mem a hx))]

theorem foldl_applyFailStep (S P : List OfflineOperation) (s : Storage)
    (hav : s.available = true)
    (hq : s.queue = P ++ S)
    (hnd : (S.map OfflineOperation.id).Nodup)
    (hdisj : ∀ p ∈ P, ∀ q ∈ S, p.id ≠ q.id) :
    S.foldl applyFailStep s = { s with queue := P ++ S.filterMap bumpDrop } := by
  induction S generalizing P s with
  | nil =>
    simp only [List.foldl_nil, List.filterMap_nil, List.append_nil]
    have hq2 : s.queue = P := by simpa using hq
    rw [← hq2]
  | cons op rest ih =>
    simp only [List.map_cons, List.nodup_cons, List.mem_map] at hnd
    obtain ⟨hopid, hndrest⟩ := hnd
    have hmapP : ∀ p ∈ P, (fun e : OfflineOperation =>
        if e.id == op.id then { e with retryCount := op.retryCount + 1 } else e) p = p := by
      intro p hp
      have : p.id ≠ op.id := hdisj p hp op (List.mem_cons_self op rest)
      simp [beq_eq_false_iff_ne.mpr this]
    have hmapR : ∀ q ∈ rest, (fun e : OfflineOperation =>
        if e.id == op.id then { e with retryCount := op.retryCount + 1 } else e) q = q := by
      intro q hqr
      have : q.id ≠ op.id := by
        intro he
        exact hopid ⟨q, hqr, he⟩
      simp [beq_eq_false_iff_ne.mpr this]
    have hstep : applyFailStep s op =
        (if op.retryCount + 1 ≥ 3 then
          { s with queue := P ++ rest }
        else
          { s with queue := P ++ { op with retryCount := op.retryCount + 1 } :: rest }) := by
      unfold applyFailStep Storage.updateOperationRetry Storage.removeFromQueue
        Storage.getOperationQueue
      simp only [hav, if_true, hq]
      have hmq : (P ++ op :: rest).map (fun e : OfflineOperation =>
          if e.id == op.id then { e with retryCount := op.retryCount + 1 } else e) =
          P ++ { op with retryCount := op.retryCount + 1 } :: rest := by
        rw [List.map_append, List.map_cons, map_noop P _ hmapP, map_noop rest _ hmapR]
        simp
      split
      · rw [hmq]
        rw [List.filter_append, List.filter_cons]
        have hself : (({ op with retryCount := op.retryCount + 1 } : OfflineOperation).id == op.id) = true := by
          simp
        have hfP : P.filter (fun e : OfflineOperation => !(e.id == op.id)) = P := by
          apply filter_noop
          intro p hp
          have : p.id ≠ op.id := hdisj p hp op (List.mem_cons_self op rest)
          simp [beq_eq_false_iff_ne.mpr this]
        have hfR : rest.filter (fun e : OfflineOperation => !(e.id == op.id)) = rest := by
          apply filter_noop
          intro q hqr
          have : q.id ≠ op.id := by
            intro he
            exact hopid ⟨q, hqr, he⟩
          simp [beq_eq_false_iff_ne.mpr this]
        simp [hself, hfP, hfR]
      · rw [hmq]
    by_cases hrc : op.retryCount + 1 ≥ 3
    · simp only [List.foldl_cons]
      rw [hstep, if_pos hrc]
      rw [ih P { s with queue := P ++ rest } hav rfl hndrest
        (fun p hp q hqr => hdisj p hp q (List.mem_cons_of_mem op hqr))]
      have hbd : bumpDrop op = none := by simp [bumpDrop, hrc]
      simp [hbd]
    · simp only [List.foldl_cons]
      rw [hstep, if_neg hrc]
      have hdisj2 : ∀ p ∈ P ++ [{ op with retryCount := op.retryCount + 1 }],
          ∀ q ∈ rest, p.id ≠ q.id := by
        intro p hp q hqr
        rcases List.mem_append.mp hp with hl | hr
        · exact hdisj p hl q (List.mem_cons_of_mem op hqr)
        · have : p = { op with retryCount := op.retryCount + 1 } := by
            simpa using hr
          subst this
          intro he
          exact hopid ⟨q, hqr, he.symm⟩
      have hq2 : ({ s with queue := P ++ { op with retryCount := op.retryCount + 1 } :: rest } : Storage).queue =
          (P ++ [{ op with retryCount := op.retryCount + 1 }]) ++ rest := by
        simp
      rw [ih (P ++ [{ op with retryCount := op.retryCount + 1 }])
        { s with queue := P ++ { op with retryCount := op.retryCount + 1 } :: rest }
        hav hq2 hndrest hdisj2]
      have hbd : bumpDrop op = some { op with retryCount := op.retryCount + 1 } := by
        simp [bumpDrop, hrc]
      simp [hbd]

theorem processOperation_available (now : Int) (op : OfflineOperation)
    (s : Storage) (r : Remote) :
    (processOperation now op s r).2.1.available = s.available := by
  rcases op with ⟨oid, ty, c, docId, dat, ts, rc⟩
  cases ty
  case create =>
    cases dat with
    | none => rfl
    | some d =>
      simp only [processOperation, processCreateOperation]
      split
      · simp [cacheDocument_available]
      · rfl
  case update =>
    cases docId with
    | none => rfl
    | some i =>
      simp only [processOperation, processUpdateOperation]
      split
      · rfl
      · rfl
      · split
        · rfl
        · cases dat with
          | none => rfl
          | some d =>
            simp only []
            split
            · rfl
            · simp [cacheDocument_available]
  case delete =>
    cases docId with
    | none => rfl
    | some i =>
      simp only [processOperation, processDeleteOperation]
      split
      · rfl
      · simp [removeCachedDocument_available]
      · split
        · rfl
        · simp [removeCachedDocument_available]

theorem syncLoop_available (now : Int) (S : List OfflineOperation)
    (s : Storage) (r : Remote) (sc ec : Nat) :
    (syncLoop now S s r sc ec).1.available = s.available := by
  induction S generalizing s r sc ec with
  | nil => rfl
  | cons op rest ih =>
    rw [syncLoop]
    rcases hp : processOperation now op s r with ⟨b, s1, r1⟩
    have hav : s1.available = s.available := by
      have := processOperation_available now op s r
      rw [hp] at this
      exact this
    cases b
    · simp only []
      rw [ih]
      split
      · rw [removeFromQueue_available, updateOperationRetry_available, hav]
      · rw [updateOperationRetry_available, hav]
    · simp only []
      rw [ih, removeFromQueue_available, hav]

theorem syncOfflineOperations_emptyQueue (st : SysState) (now : Int)
    (h : st.storage.queue = []) :
    syncOfflineOperations st now = (st, 0, 0) := by
  unfold syncOfflineOperations
  split
  · rfl
  · have hq : st.storage.getOperationQueue = [] := by
      unfold Storage.getOperationQueue
      split <;> simp [h]
    simp [hq]

theorem runPasses_emptyQueue (st : SysState) (ts : List Int)
    (h : st.storage.queue = []) :
    runPasses st ts = st := by
  induction ts with
  | nil => rfl
  | cons t ts ih =>
    rw [runPasses, syncOfflineOperations_emptyQueue st t h]
    exact ih

theorem syncPass_offline (st : SysState) (now : Int)
    (h1 : st.isSyncing = false) (h2 : st.remote.online = false)
    (h3 : st.storage.available = true) (h4 : st.storage.queue ≠ [])
    (h5 : (st.storage.queue.map OfflineOperation.id).Nodup) :
    syncOfflineOperations st now =
      ({ storage := { st.storage with
            queue := st.storage.queue.filterMap bumpDrop,
            lastSyncItem := some now },
         remote := { st.remote with
            log := st.remote.log ++ st.storage.queue.flatMap offlineCalls },
         isSyncing := false }, 0, st.storage.queue.length) := by
  have hq : st.storage.getOperationQueue = st.storage.queue := by
    unfold Storage.getOperationQueue
    rw [if_pos h3]
  have hfold := foldl_applyFailStep st.storage.queue [] st.storage h3 (by simp) h5 (by simp)
  simp only [syncOfflineOperations, h1, Bool.false_eq_true, if_false, hq]
  have hne : st.storage.queue.isEmpty = false := by
    cases hqq : st.storage.queue
    · exact absurd hqq h4
    · rfl
  simp only [hne, Bool.false_eq_true, if_false]
  rw [syncLoop_offline now st.storage.queue st.storage st.remote 0 0 h2]
  simp only [hfold, List.nil_append]
  have hset : ({ st.storage with queue := st.storage.queue.filterMap bumpDrop } : Storage).setLastSync now = ({ st.storage with queue := st.storage.queue.filterMap bumpDrop, lastSyncItem := some now } : Storage) := by
    unfold Storage.setLastSync
    rw [if_pos h3]
  rw [hset]
  simp

/-- The concrete state used as the Claim 1 counterexample: storage is
available, nothing is queued, a sync is not in progress, and a previous
last-sync value (5) is stored. -/
def c1State : SysState :=
  { storage := { available := true, offlineData := emptyOfflineData,
                 queue := [], lastSyncItem := some 5 },
    remote := { docs := [], nextId := 0, online := true, log := [] },
    isSyncing := false }

/-- Claim C1, counterexample: a sync pass started with an empty queue does
not update the stored last-sync timestamp to the current time (here 100):
the call returns before reaching `setLastSync`, leaving the stored value at
5.  The claim says the timestamp is updated "even if the queue was empty". -/
theorem C1_counterexample :
    c1State.storage.queue = [] ∧ c1State.isSyncing = false ∧
    (syncOfflineOperations c1State 100).1.storage.getLastSync ≠ 100 := by
  refine ⟨rfl, rfl, ?_⟩
  decide

/-- Claim C1, amended: `syncOfflineOperations` updates the stored last-sync
timestamp to the current time at the end of every pass that actually starts
draining (no sync already in progress and a non-empty queue snapshot), even
when every operation in the snapshot fails; when the queue is empty at the
start (or a sync is already running) the call returns early without touching
the timestamp. -/
theorem C1_lastSync_after_nonempty_pass (st : SysState) (now : Int)
    (h1 : st.isSyncing = false) (h2 : st.storage.getOperationQueue ≠ []) :
    (syncOfflineOperations st now).1.storage.getLastSync = now := by
  have h3 : st.storage.available = true := by
    by_contra hav
    apply h2
    unfold Storage.getOperationQueue
    rw [if_neg hav]
  simp only [syncOfflineOperations, h1, Bool.false_eq_true, if_false]
  have hne : st.storage.getOperationQueue.isEmpty = false := by
    cases hqq : st.storage.getOperationQueue
    · exact absurd hqq h2
    · rfl
  simp only [hne, Bool.false_eq_true, if_false]
  rcases hsl : syncLoop now st.storage.getOperationQueue st.storage st.remote 0 0
    with ⟨s1, r1, sc, ec⟩
  simp only []
  have hav1 : s1.available = true := by
    have hpres := syncLoop_available now st.storage.getOperationQueue st.storage st.remote 0 0
    rw [hsl] at hpres
    rw [hpres]
    exact h3
  unfold Storage.getLastSync Storage.setLastSync
  rw [if_pos hav1]
  simp [hav1]

/-- A concrete state with one queued operation, used to witness the amended
Claim 1 theorem. -/
def c1WitnessState : SysState :=
  { storage := { available := true, offlineData := emptyOfflineData,
                 queue := [{ id := "w1", type := OpType.update,
                             collection := "groups", documentId := some "g1",
                             data := some [("name", JVal.str "X")],
                             timestamp := 0, retryCount := 0 }],
                 lastSyncItem := none },
    remote := { docs := [], nextId := 0, online := false, log := [] },
    isSyncing := false }

/-- Witness for `C1_lastSync_after_nonempty_pass` at a concrete state with
one queued operation. -/
theorem C1_lastSync_witness :
    c1WitnessState.isSyncing = false ∧
    c1WitnessState.storage.getOperationQueue ≠ [] ∧
    (syncOfflineOperations c1WitnessState 77).1.storage.getLastSync = 77 := by
  have hne : c1WitnessState.storage.getOperationQueue ≠ [] := by
    intro h
    exact List.noConfusion h
  exact ⟨rfl, hne, C1_lastSync_after_nonempty_pass c1WitnessState 77 rfl hne⟩

theorem syncPass_offline_single (st : SysState) (now : Int)
    (op : OfflineOperation)
    (h1 : st.isSyncing = false) (h2 : st.remote.online = false)
    (h3 : st.storage.available = true) (h4 : st.storage.queue = [op])
    (h5 : op.retryCount + 1 < 3) :
    syncOfflineOperations st now =
      ({ storage := { st.storage with
            queue := [{ op with retryCount := op.retryCount + 1 }],
            lastSyncItem := some now },
         remote := { st.remote with log := st.remote.log ++ offlineCalls op },
         isSyncing := false }, 0, 1) := by
  have hne : st.storage.queue ≠ [] := by
    rw [h4]
    exact fun h => List.noConfusion h
  have hnd : (st.storage.queue.map OfflineOperation.id).Nodup := by
    rw [h4]
    simp
  have hpass := syncPass_offline st now h1 h2 h3 hne hnd
  rw [hpass, h4]
  have hbd : bumpDrop op = some { op with retryCount := op.retryCount + 1 } := by
    unfold bumpDrop
    rw [if_neg (by omega)]
  simp [hbd]

theorem syncPass_offline_single_drop (st : SysState) (now : Int)
    (op : OfflineOperation)
    (h1 : st.isSyncing = false) (h2 : st.remote.online = false)
    (h3 : st.storage.available = true) (h4 : st.storage.queue = [op])
    (h5 : op.retryCount + 1 ≥ 3) :
    syncOfflineOperations st now =
      ({ storage := { st.storage with
            queue := [],
            lastSyncItem := some now },
         remote := { st.remote with log := st.remote.log ++ offlineCalls op },
         isSyncing := false }, 0, 1) := by
  have hne : st.storage.queue ≠ [] := by
    rw [h4]
    exact fun h => List.noConfusion h
  have hnd : (st.storage.queue.map OfflineOperation.id).Nodup := by
    rw [h4]
    simp
  have hpass := syncPass_offline st now h1 h2 h3 hne hnd
  rw [hpass, h4]
  have hbd : bumpDrop op = none := by
    unfold bumpDrop
    rw [if_pos h5]
  simp [hbd]

theorem offlineCalls_retryCount (op : OfflineOperation) (n : Nat) :
    offlineCalls { op with retryCount := n } = offlineCalls op := rfl

/-- Claim C2: retry bookkeeping of an always-failing operation.  First part:
in any all-fail pass (remote unreachable) over a queue of operations with
distinct ids, every queued operation has its retry count incremented by
exactly 1 (never decreased) and is dropped exactly when the bumped count
reaches the ceiling of 3, as described pointwise by `bumpDrop`; the pass
reports every operation as failed and none as succeeded.  Second part: a
fresh operation (retryCount 0) alone in the queue is attempted exactly three
times across successive passes — its retry count going 1, 2, then removal —
and after its removal no further pass attempts it again (the remote call
trace never grows past the three attempts). -/
theorem C2_retry_ceiling :
    (∀ (st : SysState) (now : Int),
      st.isSyncing = false → st.remote.online = false →
      st.storage.available = true → st.storage.queue ≠ [] →
      (st.storage.queue.map OfflineOperation.id).Nodup →
      (syncOfflineOperations st now).1.storage.queue =
          st.storage.queue.filterMap bumpDrop ∧
      (syncOfflineOperations st now).2.1 = 0 ∧
      (syncOfflineOperations st now).2.2 = st.storage.queue.length) ∧
    (∀ (st : SysState) (op : OfflineOperation) (t1 t2 t3 : Int),
      st.isSyncing = false → st.remote.online = false →
      st.storage.available = true → st.storage.queue = [op] →
      op.retryCount = 0 →
      (syncOfflineOperations st t1).1.storage.queue =
          [{ op with retryCount := 1 }] ∧
      (syncOfflineOperations (syncOfflineOperations st t1).1 t2).1.storage.queue =
          [{ op with retryCount := 2 }] ∧
      (syncOfflineOperations (syncOfflineOperations
          (syncOfflineOperations st t1).1 t2).1 t3).1.storage.queue = [] ∧
      (syncOfflineOperations (syncOfflineOperations
          (syncOfflineOperations st t1).1 t2).1 t3).1.remote.log =
        st.remote.log ++ (offlineCalls op ++ (offlineCalls op ++ offlineCalls op)) ∧
      (∀ ts : List Int,
        runPasses (syncOfflineOperations (syncOfflineOperations
          (syncOfflineOperations st t1).1 t2).1 t3).1 ts =
        (syncOfflineOperations (syncOfflineOperations
          (syncOfflineOperations st t1).1 t2).1 t3).1)) := by
  constructor
  · intro st now h1 h2 h3 h4 h5
    rw [syncPass_offline st now h1 h2 h3 h4 h5]
    exact ⟨rfl, rfl, rfl⟩
  · intro st op t1 t2 t3 h1 h2 h3 h4 hrc
    have e1 := syncPass_offline_single st t1 op h1 h2 h3 h4 (by omega)
    rw [e1]
    have e2 := syncPass_offline_single ({ storage := { st.storage with queue := [{ op with retryCount := op.retryCount + 1 }], lastSyncItem := some t1 }, remote := { st.remote with log := st.remote.log ++ offlineCalls op }, isSyncing := false } : SysState) t2 { op with retryCount := op.retryCount + 1 } rfl h2 h3 rfl (by simp [hrc])
    rw [e2]
    have e3 := syncPass_offline_single_drop ({ storage := { st.storage with queue := [{ op with retryCount := op.retryCount + 1 + 1 }], lastSyncItem := some t2 }, remote := { st.remote with log := (st.remote.log ++ offlineCalls op) ++ offlineCalls { op with retryCount := op.retryCount + 1 } }, isSyncing := false } : SysState) t3 { op with retryCount := op.retryCount + 1 + 1 } rfl h2 h3 rfl (by simp [hrc])
    rw [e3]
    refine ⟨by simp [hrc], by simp [hrc], rfl,
      by simp [offlineCalls_retryCount, List.append_assoc], ?_⟩
    intro ts
    exact runPasses_emptyQueue _ ts rfl

/-- The always-failing operation used to witness Claim 2. -/
def c2Op : OfflineOperation :=
  { id := "q1", type := OpType.update, collection := "groups",
    documentId := some "g1", data := some [("name", JVal.str "T")],
    timestamp := 0, retryCount := 0 }

/-- The concrete starting state used to witness Claim 2: one fresh queued
operation and an unreachable remote store. -/
def c2State : SysState :=
  { storage := { available := true, offlineData := emptyOfflineData,
                 queue := [c2Op], lastSyncItem := none },
    remote := { docs := [], nextId := 0, online := false, log := [] },
    isSyncing := false }

/-- Witness for `C2_retry_ceiling` at the concrete state `c2State`. -/
theorem C2_retry_ceiling_witness :
    (syncOfflineOperations c2State 1).1.storage.queue =
        [{ c2Op with retryCount := 1 }] ∧
    (syncOfflineOperations (syncOfflineOperations c2State 1).1 2).1.storage.queue =
        [{ c2Op with retryCount := 2 }] ∧
    (syncOfflineOperations (syncOfflineOperations
        (syncOfflineOperations c2State 1).1 2).1 3).1.storage.queue = [] ∧
    (syncOfflineOperations (syncOfflineOperations
        (syncOfflineOperations c2State 1).1 2).1 3).1.remote.log =
      c2State.remote.log ++ (offlineCalls c2Op ++ (offlineCalls c2Op ++ offlineCalls c2Op)) ∧
    runPasses (syncOfflineOperations (syncOfflineOperations
        (syncOfflineOperations c2State 1).1 2).1 3).1 [4, 5] =
      (syncOfflineOperations (syncOfflineOperations
        (syncOfflineOperations c2State 1).1 2).1 3).1 := by
  obtain ⟨hq1, hq2, hq3, hlog, hfix⟩ :=
    C2_retry_ceiling.2 c2State c2Op 1 2 3 rfl rfl rfl rfl rfl
  exact ⟨hq1, hq2, hq3, hlog, hfix [4, 5]⟩

/-- The cached `g1` group document before the Scenario B update. -/
def c3Group0 : JObj := [("id", JVal.str "g1"), ("name", JVal.str "Old")]

/-- Scenario B starting state: `g1` is cached, nothing queued, the remote
store unreachable. -/
def c3St0 : SysState :=
  { storage := { available := true,
                 offlineData := { groups := [("g1", c3Group0)], expenses := [],
                                  users := [], lastSync := 0 },
                 queue := [], lastSyncItem := none },
    remote := { docs := [], nextId := 0, online := false, log := [] },
    isSyncing := false }

/-- Scenario B: the offline `updateDocument` call that caches
`name = "Trip"` optimistically and queues the UPDATE operation. -/
def c3St1 : SysState :=
  updateDocument c3St0 false "groups" "g1" [("name", JVal.str "Trip")] 10 "op1"

/-- The three successive sync passes of Scenario B, every remote application
failing. -/
def c3Pass1 : SysState × Nat × Nat := syncOfflineOperations c3St1 20

/-- Second Scenario B pass. -/
def c3Pass2 : SysState × Nat × Nat := syncOfflineOperations c3Pass1.1 30

/-- Third Scenario B pass. -/
def c3Pass3 : SysState × Nat × Nat := syncOfflineOperations c3Pass2.1 40

/-- The total of the failed-counts reported by the three Scenario B passes
(each pass surfaces its `errorCount` in its summary toast). -/
def c3TotalFailed : Nat := c3Pass1.2.2 + c3Pass2.2.2 + c3Pass3.2.2

/-- The cached `name` field of `g1` after the three failing passes. -/
def c3CachedName : Option JVal :=
  match c3Pass3.1.storage.getCachedDocument "groups" "g1" with
  | some (JVal.obj o) => o.lookup "name"
  | _ => none

/-- Claim C3, counterexample: with a single queued Update("groups","g1",
name = "Trip") whose remote application fails in every pass, the failed
count reported across the 3 passes totals 3 (each pass reports the failed
attempt), not 1 as the claim states. -/
theorem C3_counterexample : c3TotalFailed = 3 ∧ c3TotalFailed ≠ 1 := by
  constructor
  · decide
  · decide

/-- Claim C3, amended: after the 3 all-failing passes the queue length is 0
and the optimistically cached value g1.name = "Trip" is still present, but
the failed-count is 1 per pass (three failure reports in total, one per
failed attempt); the exhaustion on the third pass removes the operation
without being reported separately. -/
theorem C3_scenarioB :
    c3Pass3.1.storage.queue = [] ∧
    c3Pass1.2.2 = 1 ∧ c3Pass2.2.2 = 1 ∧ c3Pass3.2.2 = 1 ∧
    c3Pass1.2.1 = 0 ∧ c3Pass2.2.1 = 0 ∧ c3Pass3.2.1 = 0 ∧
    c3CachedName = some (JVal.str "Trip") := by
  refine ⟨rfl, rfl, rfl, rfl, rfl, rfl, rfl, rfl⟩

theorem getCachedInData_removeCachedInData (d : OfflineData) (c i : String) :
    getCachedInData (removeCachedInData d c i) c i = none := by
  unfold getCachedInData removeCachedInData
  by_cases hg : c = "groups"
  · simp [hg, lookup_removeAssoc_self]
  · by_cases he : c = "expenses"
    · simp [hg, he, lookup_removeAssoc_self]
    · by_cases hu : c = "users"
      · simp [hg, he, hu, lookup_removeAssoc_self]
      · simp [hg, he, hu]

/-- Claim C6: a queued Delete whose target the remote store reports as
already absent is treated as success: the pass reports 1 success and 0
failures, the queue entry is removed (no retry-count increment can occur
since the entry is gone and errorCount is 0), the cache entry for the
document is removed, the remote documents are untouched, and the only remote
call made is the existence check. -/
theorem C6_delete_absent (st : SysState) (op : OfflineOperation) (d : String)
    (now : Int)
    (h1 : st.isSyncing = false) (h2 : st.storage.available = true)
    (h3 : st.storage.queue = [op]) (h4 : op.type = OpType.delete)
    (h5 : op.documentId = some d) (h6 : st.remote.online = true)
    (h7 : st.remote.docs.lookup (op.collection, d) = none) :
    syncOfflineOperations st now =
      ({ storage := { st.storage with
            offlineData := removeCachedInData st.storage.offlineData op.collection d,
            queue := [],
            lastSyncItem := some now },
         remote := { st.remote with
            log := st.remote.log ++ [RemoteCall.get op.collection d] },
         isSyncing := false }, 1, 0) ∧
    getCachedInData (removeCachedInData st.storage.offlineData op.collection d)
      op.collection d = none := by
  refine ⟨?_, getCachedInData_removeCachedInData _ _ _⟩
  have hproc : processOperation now op st.storage st.remote =
      (true, st.storage.removeCachedDocument op.collection d,
       { st.remote with log := st.remote.log ++ [RemoteCall.get op.collection d] }) := by
    simp only [processOperation, h4, processDeleteOperation, h5, Remote.getDoc,
      h6, if_true, h7]
  have hrc : st.storage.removeCachedDocument op.collection d =
      { st.storage with
        offlineData := removeCachedInData st.storage.offlineData op.collection d } := by
    unfold Storage.removeCachedDocument Storage.saveOfflineData Storage.getOfflineData
    rw [if_pos h2, if_pos h2]
  have hq : st.storage.getOperationQueue = [op] := by
    unfold Storage.getOperationQueue
    rw [if_pos h2, h3]
  simp only [syncOfflineOperations, h1, Bool.false_eq_true, if_false, hq]
  have hne : ([op] : List OfflineOperation).isEmpty = false := rfl
  simp only [hne, Bool.false_eq_true, if_false]
  simp only [syncLoop, hproc, hrc]
  have hrmq : ({ st.storage with
      offlineData := removeCachedInData st.storage.offlineData op.collection d } : Storage).removeFromQueue op.id =
      { st.storage with
        offlineData := removeCachedInData st.storage.offlineData op.collection d,
        queue := [] } := by
    unfold Storage.removeFromQueue Storage.getOperationQueue
    rw [if_pos h2, if_pos h2]
    simp [h3]
  rw [hrmq]
  have hsls : ({ st.storage with
      offlineData := removeCachedInData st.storage.offlineData op.collection d,
      queue := [] } : Storage).setLastSync now =
      { st.storage with
        offlineData := removeCachedInData st.storage.offlineData op.collection d,
        queue := [],
        lastSyncItem := some now } := by
    unfold Storage.setLastSync
    rw [if_pos h2]
  simp only [syncLoop]
  rw [hsls]

/-- The delete operation used to witness Claim 6. -/
def c6Op : OfflineOperation :=
  { id := "d1", type := OpType.delete, collection := "groups",
    documentId := some "g9", data := none, timestamp := 0, retryCount := 0 }

/-- Witness state for Claim 6: a queued delete of `groups/g9` while the
reachable remote store holds no such document (only an unrelated one). -/
def c6State : SysState :=
  { storage := { available := true,
                 offlineData := { groups := [("g9", [("id", JVal.str "g9")])],
                                  expenses := [], users := [], lastSync := 0 },
                 queue := [c6Op],
                 lastSyncItem := none },
    remote := { docs := [(("groups", "other"), [("a", JVal.num 1)])],
                nextId := 0, online := true, log := [] },
    isSyncing := false }

/-- Witness for `C6_delete_absent` at the concrete state `c6State`. -/
theorem C6_delete_absent_witness :
    syncOfflineOperations c6State 50 =
      ({ storage := { c6State.storage with
            offlineData := removeCachedInData c6State.storage.offlineData
              c6Op.collection "g9",
            queue := [],
            lastSyncItem := some 50 },
         remote := { c6State.remote with
            log := c6State.remote.log ++ [RemoteCall.get c6Op.collection "g9"] },
         isSyncing := false }, 1, 0) ∧
    getCachedInData (removeCachedInData c6State.storage.offlineData
      c6Op.collection "g9") c6Op.collection "g9" = none :=
  C6_delete_absent c6State c6Op "g9" 50 rfl rfl rfl rfl rfl rfl rfl

/-- Claim C7: triggering `syncOfflineOperations` while a pass is already in
progress (`isSyncing = true`) is a no-op: the guard returns immediately with
the state unchanged (queue, cache, remote store and timestamps included) and
a zero summary. -/
theorem C7_no_reentrant_sync (st : SysState) (now : Int)
    (h : st.isSyncing = true) :
    syncOfflineOperations st now = (st, 0, 0) := by
  unfold syncOfflineOperations
  rw [if_pos h]

/-- Witness state for Claim 7: a sync in progress with a non-empty queue. -/
def c7State : SysState :=
  { storage := { available := true, offlineData := emptyOfflineData,
                 queue := [{ id := "p1", type := OpType.create,
                             collection := "groups",
                             documentId := none,
                             data := some [("name", JVal.str "N")],
                             timestamp := 0, retryCount := 0 }],
                 lastSyncItem := some 3 },
    remote := { docs := [], nextId := 0, online := true, log := [] },
    isSyncing := true }

/-- Witness for `C7_no_reentrant_sync`: the second trigger leaves the state
(including the pending queue) untouched. -/
theorem C7_no_reentrant_sync_witness :
    syncOfflineOperations c7State 9 = (c7State, 0, 0) :=
  C7_no_reentrant_sync c7State 9 rfl

/-- Claim C8: `getStorageInfo` on an empty store with storage available
returns exactly used 0, available 5242880 and percentage 0; `available` is
the fixed 5 MiB budget on every input, and the percentage is always the used
bytes divided by the available bytes times 100. -/
theorem C8_storage_info_empty :
    getStorageInfo [] true =
      { used := 0, available := 5242880, percentage := 0 } ∧
    (∀ items : List (String × String),
      (getStorageInfo items true).available = 5242880) ∧
    (∀ items : List (String × String),
      (getStorageInfo items true).percentage =
        ((getStorageInfo items true).used : Rat) /
          (((getStorageInfo items true).available : Nat) : Rat) * 100) := by
  refine ⟨?_, fun items => rfl, fun items => rfl⟩
  unfold getStorageInfo storageKeyList
  simp [List.lookup]

/-- Claim C10: when a `getDocument` read is made while online and the remote
store (reachably) reports the document as absent, the function returns the
previously cached value (or `null` when none is cached) and the storage is
left completely unchanged — only the remote call trace records the read;
remote absence never invalidates the cached document. -/
theorem C10_remote_absent_read (st : SysState) (c i : String) (now : Int)
    (h1 : st.remote.online = true)
    (h2 : st.remote.docs.lookup (c, i) = none) :
    getDocument st true c i now =
      (st.storage.getCachedDocument c i,
       { st with remote := { st.remote with
            log := st.remote.log ++ [RemoteCall.get c i] } }) := by
  simp [getDocument, Remote.getDoc, h1, h2]

/-- Witness state for Claim 10: `groups/g1` cached locally, the reachable
remote store not holding it. -/
def c10State : SysState :=
  { storage := { available := true,
                 offlineData := { groups := [("g1", [("id", JVal.str "g1"),
                                                     ("name", JVal.str "Trip")])],
                                  expenses := [], users := [], lastSync := 0 },
                 queue := [], lastSyncItem := none },
    remote := { docs := [], nextId := 0, online := true, log := [] },
    isSyncing := false }

/-- Witness for `C10_remote_absent_read` at `c10State`: the read returns the
cached `g1` and does not change the storage. -/
theorem C10_remote_absent_read_witness :
    getDocument c10State true "groups" "g1" 7 =
      (c10State.storage.getCachedDocument "groups" "g1",
       { c10State with remote := { c10State.remote with
            log := c10State.remote.log ++ [RemoteCall.get "groups" "g1"] } }) ∧
    c10State.storage.getCachedDocument "groups" "g1" =
      some (JVal.obj [("id", JVal.str "g1"), ("name", JVal.str "Trip")]) :=
  ⟨C10_remote_absent_read c10State "groups" "g1" 7 rfl rfl, rfl⟩

theorem cacheDocument_def2 (s : Storage) (c i : String) (d : JObj) (now : Int) :
    s.cacheDocument c i d now =
      if s.available = true then
        { s with offlineData := cacheDocInData s.offlineData c i d now }
      else s := by
  unfold Storage.cacheDocument Storage.saveOfflineData Storage.getOfflineData
  by_cases hav : s.available = true
  · rw [if_pos hav, if_pos hav, if_pos hav]
  · rw [if_neg hav, if_neg hav]

theorem getCachedDocument_def2 (s : Storage) (c i : String) :
    s.getCachedDocument c i =
      if s.available = true then getCachedInData s.offlineData c i
      else getCachedInData emptyOfflineData c i := by
  unfold Storage.getCachedDocument Storage.getOfflineData
  by_cases hav : s.available = true
  · rw [if_pos hav, if_pos hav]
  · rw [if_neg hav, if_neg hav]

theorem getCachedInData_empty (c i : String) :
    getCachedInData emptyOfflineData c i = none := by
  unfold getCachedInData emptyOfflineData
  split
  · rfl
  · split
    · rfl
    · split
      · rfl
      · rfl

/-- The stored form of a cached group or user document:
`\x7b...data, id, _cachedAt\x7d`. -/
def cachedForm (d : JObj) (i : String) (now : Int) : JObj :=
  spreadObj d [("id", JVal.str i), ("_cachedAt", JVal.num now)]

/-- The stored form of a cached expense entry: `\x7b...data, _cachedAt\x7d`. -/
def cachedExpenseForm (d : JObj) (now : Int) : JObj :=
  spreadObj d [("_cachedAt", JVal.num now)]

theorem cachedForm_lookup_id (d : JObj) (i : String) (now : Int) :
    (cachedForm d i now).lookup "id" = some (JVal.str i) := by
  unfold cachedForm
  rw [spreadObj_cons]
  rw [lookup_spreadObj_not_mem _ _ "id" (by simp)]
  exact lookup_setAssoc_self d "id" (JVal.str i)

theorem cachedForm_lookup_other (d : JObj) (i : String) (now : Int)
    (k : String) (hk1 : k ≠ "id") (hk2 : k ≠ "_cachedAt") :
    (cachedForm d i now).lookup k = d.lookup k := by
  unfold cachedForm
  rw [lookup_spreadObj_not_mem _ _ k (by simp [Ne.symm hk1, Ne.symm hk2])]

theorem cachedExpenseForm_lookup_id (d : JObj) (now : Int) :
    (cachedExpenseForm d now).lookup "id" = d.lookup "id" := by
  unfold cachedExpenseForm
  rw [lookup_spreadObj_not_mem _ _ "id" (by simp)]

theorem cacheDocInData_groups (od : OfflineData) (i : String) (d : JObj)
    (now : Int) :
    cacheDocInData od "groups" i d now =
      { od with groups := setAssoc od.groups i (cachedForm d i now) } := by
  simp [cacheDocInData, cachedForm]

theorem cacheDocInData_users (od : OfflineData) (i : String) (d : JObj)
    (now : Int) :
    cacheDocInData od "users" i d now =
      { od with users := setAssoc od.users i (cachedForm d i now) } := by
  simp [cacheDocInData, cachedForm]

theorem getCachedInData_groups (od : OfflineData) (i : String) :
    getCachedInData od "groups" i = (od.groups.lookup i).map JVal.obj := by
  simp [getCachedInData]

theorem getCachedInData_users (od : OfflineData) (i : String) :
    getCachedInData od "users" i = (od.users.lookup i).map JVal.obj := by
  simp [getCachedInData]

theorem getCachedInData_expenses (od : OfflineData) (gid : String) :
    getCachedInData od "expenses" gid =
      (od.expenses.lookup gid).map (fun l => JVal.arr (l.map JVal.obj)) := by
  simp [getCachedInData]

theorem cacheDocument_avail2 (s : Storage) (c i : String) (d : JObj)
    (now : Int) (hav : s.available = true) :
    s.cacheDocument c i d now =
      { s with offlineData := cacheDocInData s.offlineData c i d now } := by
  rw [cacheDocument_def2, if_pos hav]

theorem getCachedDocument_avail2 (s : Storage) (c i : String)
    (hav : s.available = true) :
    s.getCachedDocument c i = getCachedInData s.offlineData c i := by
  rw [getCachedDocument_def2, if_pos hav]

theorem cacheDocument_twice_avail (s : Storage) (c1 i1 : String) (d1 : JObj)
    (t1 : Int) (c2 i2 : String) (d2 : JObj) (t2 : Int)
    (hav : s.available = true) :
    (s.cacheDocument c1 i1 d1 t1).cacheDocument c2 i2 d2 t2 =
      { s with offlineData :=
          cacheDocInData (cacheDocInData s.offlineData c1 i1 d1 t1) c2 i2 d2 t2 } := by
  rw [cacheDocument_avail2 s c1 i1 d1 t1 hav]
  exact cacheDocument_avail2
    ({ s with offlineData := cacheDocInData s.offlineData c1 i1 d1 t1 }) c2 i2 d2 t2 hav

theorem addToQueue_offlineData (s : Storage) (t : OpType) (c : String)
    (docId : Option String) (d : Option JObj) (opId : String) (now : Int) :
    (s.addToQueue t c docId d opId now).offlineData = s.offlineData := by
  unfold Storage.addToQueue
  split <;> rfl

theorem addToQueue_available (s : Storage) (t : OpType) (c : String)
    (docId : Option String) (d : Option JObj) (opId : String) (now : Int) :
    (s.addToQueue t c docId d opId now).available = s.available := by
  unfold Storage.addToQueue
  split <;> rfl

theorem cache_get_groups_users (s : Storage) (c i : String) (d : JObj)
    (now : Int) (hav : s.available = true) (hc : c = "groups" ∨ c = "users") :
    (s.cacheDocument c i d now).getCachedDocument c i =
      some (JVal.obj (cachedForm d i now)) := by
  rw [cacheDocument_avail2 s c i d now hav]
  rw [getCachedDocument_avail2
    ({ s with offlineData := cacheDocInData s.offlineData c i d now }) c i hav]
  rcases hc with rfl | rfl
  · rw [cacheDocInData_groups]
    rw [getCachedInData_groups]
    rw [show ({ s.offlineData with groups := setAssoc s.offlineData.groups i (cachedForm d i now) } : OfflineData).groups = setAssoc s.offlineData.groups i (cachedForm d i now) from rfl]
    rw [lookup_setAssoc_self]
    rfl
  · rw [cacheDocInData_users, getCachedInData_users]
    rw [show ({ s.offlineData with users := setAssoc s.offlineData.users i (cachedForm d i now) } : OfflineData).users = setAssoc s.offlineData.users i (cachedForm d i now) from rfl]
    rw [lookup_setAssoc_self]
    rfl

theorem cache_get_expenses_fresh (s : Storage) (gid : String) (d : JObj)
    (now : Int) (hav : s.available = true)
    (hnone : s.offlineData.expenses.lookup gid = none) :
    (s.cacheDocument "expenses" gid d now).getCachedDocument "expenses" gid =
      some (JVal.arr [JVal.obj (cachedExpenseForm d now)]) := by
  rw [cacheDocument_avail2 s _ gid d now hav]
  rw [getCachedDocument_avail2
    ({ s with offlineData := cacheDocInData s.offlineData "expenses" gid d now }) _ gid hav]
  have hin : cacheDocInData s.offlineData "expenses" gid d now =
      { s.offlineData with expenses := setAssoc s.offlineData.expenses gid [cachedExpenseForm d now] } := by
    simp [cacheDocInData, hnone, cachedExpenseForm]
  rw [show ({ s with offlineData := cacheDocInData s.offlineData "expenses" gid d now } : Storage).offlineData = cacheDocInData s.offlineData "expenses" gid d now from rfl]
  rw [hin, getCachedInData_expenses]
  rw [show ({ s.offlineData with expenses := setAssoc s.offlineData.expenses gid [cachedExpenseForm d now] } : OfflineData).expenses = setAssoc s.offlineData.expenses gid [cachedExpenseForm d now] from rfl]
  rw [lookup_setAssoc_self]
  rfl

theorem cacheDocument_unknown (s : Storage) (c i : String) (d : JObj)
    (now : Int) (hg : c ≠ "groups") (he : c ≠ "expenses") (hu : c ≠ "users") :
    s.cacheDocument c i d now = s := by
  unfold Storage.cacheDocument Storage.saveOfflineData Storage.getOfflineData
  simp only [cacheDocInData, if_neg hg, if_neg he, if_neg hu]
  split
  · rfl
  · rfl

theorem getCachedDocument_unknown (s : Storage) (c i : String)
    (hg : c ≠ "groups") (he : c ≠ "expenses") (hu : c ≠ "users") :
    s.getCachedDocument c i = none := by
  unfold Storage.getCachedDocument
  simp [getCachedInData, hg, he, hu]

/-- Claim C9: the cache round-trip is collection-dependent.  For "groups"
and "users", caching then reading yields the stored payload with the id and
a cache timestamp stamped in (other payload fields preserved), and a second
cache for the same (collection, id) overwrites the first.  For "expenses",
the value stored under the id is a list (the id acts as a group key):
reading returns an array, a fresh group key yields a one-entry list, a
second cache whose `data.id` strictly equals the stored entry id replaces
the entry, and one with a different `data.id` appends.  For every other
collection name, caching leaves the storage unchanged and reading always
returns `null`. -/
theorem C9_cache_roundtrip :
    (∀ (s : Storage) (c i : String) (d : JObj) (now : Int),
      s.available = true → (c = "groups" ∨ c = "users") →
      (s.cacheDocument c i d now).getCachedDocument c i =
        some (JVal.obj (cachedForm d i now))) ∧
    (∀ (s : Storage) (c i : String) (d1 d2 : JObj) (t1 t2 : Int),
      s.available = true → (c = "groups" ∨ c = "users") →
      ((s.cacheDocument c i d1 t1).cacheDocument c i d2 t2).getCachedDocument c i =
        some (JVal.obj (cachedForm d2 i t2))) ∧
    (∀ (d : JObj) (i : String) (now : Int),
      (cachedForm d i now).lookup "id" = some (JVal.str i) ∧
      (cachedForm d i now).lookup "_cachedAt" = some (JVal.num now) ∧
      ∀ k : String, k ≠ "id" → k ≠ "_cachedAt" →
        (cachedForm d i now).lookup k = d.lookup k) ∧
    (∀ (s : Storage) (gid : String) (d : JObj) (now : Int),
      s.available = true → s.offlineData.expenses.lookup gid = none →
      (s.cacheDocument "expenses" gid d now).getCachedDocument "expenses" gid =
        some (JVal.arr [JVal.obj (cachedExpenseForm d now)])) ∧
    (∀ (s : Storage) (gid : String) (d1 d2 : JObj) (t1 t2 : Int),
      s.available = true → s.offlineData.expenses.lookup gid = none →
      jsIdEq (d1.lookup "id") (d2.lookup "id") = true →
      ((s.cacheDocument "expenses" gid d1 t1).cacheDocument "expenses" gid d2 t2).getCachedDocument "expenses" gid =
        some (JVal.arr [JVal.obj (cachedExpenseForm d2 t2)])) ∧
    (∀ (s : Storage) (gid : String) (d1 d2 : JObj) (t1 t2 : Int),
      s.available = true → s.offlineData.expenses.lookup gid = none →
      jsIdEq (d1.lookup "id") (d2.lookup "id") = false →
      ((s.cacheDocument "expenses" gid d1 t1).cacheDocument "expenses" gid d2 t2).getCachedDocument "expenses" gid =
        some (JVal.arr [JVal.obj (cachedExpenseForm d1 t1),
                        JVal.obj (cachedExpenseForm d2 t2)])) ∧
    (∀ (s : Storage) (c i : String) (d : JObj) (now : Int),
      c ≠ "groups" → c ≠ "expenses" → c ≠ "users" →
      s.cacheDocument c i d now = s ∧ s.getCachedDocument c i = none) := by
  have hgu := cache_get_groups_users
  refine ⟨hgu, ?_, ?_, ?_, ?_, ?_, ?_⟩
  · intro s c i d1 d2 t1 t2 hav hc
    have hav1 : (s.cacheDocument c i d1 t1).available = true := by
      rw [cacheDocument_available]
      exact hav
    exact hgu (s.cacheDocument c i d1 t1) c i d2 t2 hav1 hc
  · intro d i now
    refine ⟨cachedForm_lookup_id d i now, ?_, cachedForm_lookup_other d i now⟩
    unfold cachedForm
    rw [spreadObj_cons, spreadObj_cons, spreadObj_nil]
    exact lookup_setAssoc_self _ "_cachedAt" (JVal.num now)
  · intro s gid d now hav hnone
    exact cache_get_expenses_fresh s gid d now hav hnone
  · intro s gid d1 d2 t1 t2 hav hnone hideq
    rw [cacheDocument_twice_avail s _ gid d1 t1 _ gid d2 t2 hav]
    rw [getCachedDocument_avail2
      ({ s with offlineData := cacheDocInData (cacheDocInData s.offlineData "expenses" gid d1 t1) "expenses" gid d2 t2 }) _ gid hav]
    rw [show ({ s with offlineData := cacheDocInData (cacheDocInData s.offlineData "expenses" gid d1 t1) "expenses" gid d2 t2 } : Storage).offlineData = cacheDocInData (cacheDocInData s.offlineData "expenses" gid d1 t1) "expenses" gid d2 t2 from rfl]
    have hin1 : cacheDocInData s.offlineData "expenses" gid d1 t1 =
        { s.offlineData with expenses := setAssoc s.offlineData.expenses gid [cachedExpenseForm d1 t1] } := by
      simp [cacheDocInData, hnone, cachedExpenseForm]
    rw [hin1]
    have hin2 : cacheDocInData ({ s.offlineData with expenses := setAssoc s.offlineData.expenses gid [cachedExpenseForm d1 t1] } : OfflineData) "expenses" gid d2 t2 =
        { s.offlineData with expenses := setAssoc (setAssoc s.offlineData.expenses gid [cachedExpenseForm d1 t1]) gid [cachedExpenseForm d2 t2] } := by
      have hl : List.lookup "id" (spreadObj d1 [("_cachedAt", JVal.num t1)]) = List.lookup "id" d1 :=
        lookup_spreadObj_not_mem d1 [("_cachedAt", JVal.num t1)] "id" (by simp)
      simp [cacheDocInData, lookup_setAssoc_self, List.findIdx?_cons, hl,
        hideq, cachedExpenseForm]
    rw [hin2, getCachedInData_expenses]
    rw [show ({ s.offlineData with expenses := setAssoc (setAssoc s.offlineData.expenses gid [cachedExpenseForm d1 t1]) gid [cachedExpenseForm d2 t2] } : OfflineData).expenses = setAssoc (setAssoc s.offlineData.expenses gid [cachedExpenseForm d1 t1]) gid [cachedExpenseForm d2 t2] from rfl]
    rw [lookup_setAssoc_self]
    rfl
  · intro s gid d1 d2 t1 t2 hav hnone hideq
    rw [cacheDocument_twice_avail s _ gid d1 t1 _ gid d2 t2 hav]
    rw [getCachedDocument_avail2
      ({ s with offlineData := cacheDocInData (cacheDocInData s.offlineData "expenses" gid d1 t1) "expenses" gid d2 t2 }) _ gid hav]
    rw [show ({ s with offlineData := cacheDocInData (cacheDocInData s.offlineData "expenses" gid d1 t1) "expenses" gid d2 t2 } : Storage).offlineData = cacheDocInData (cacheDocInData s.offlineData "expenses" gid d1 t1) "expenses" gid d2 t2 from rfl]
    have hin1 : cacheDocInData s.offlineData "expenses" gid d1 t1 =
        { s.offlineData with expenses := setAssoc s.offlineData.expenses gid [cachedExpenseForm d1 t1] } := by
      simp [cacheDocInData, hnone, cachedExpenseForm]
    rw [hin1]
    have hin2 : cacheDocInData ({ s.offlineData with expenses := setAssoc s.offlineData.expenses gid [cachedExpenseForm d1 t1] } : OfflineData) "expenses" gid d2 t2 =
        { s.offlineData with expenses := setAssoc (setAssoc s.offlineData.expenses gid [cachedExpenseForm d1 t1]) gid [cachedExpenseForm d1 t1, cachedExpenseForm d2 t2] } := by
      have hl : List.lookup "id" (spreadObj d1 [("_cachedAt", JVal.num t1)]) = List.lookup "id" d1 :=
        lookup_spreadObj_not_mem d1 [("_cachedAt", JVal.num t1)] "id" (by simp)
      simp [cacheDocInData, lookup_setAssoc_self, List.findIdx?_cons, hl,
        hideq, cachedExpenseForm]
    rw [hin2, getCachedInData_expenses]
    rw [show ({ s.offlineData with expenses := setAssoc (setAssoc s.offlineData.expenses gid [cachedExpenseForm d1 t1]) gid [cachedExpenseForm d1 t1, cachedExpenseForm d2 t2] } : OfflineData).expenses = setAssoc (setAssoc s.offlineData.expenses gid [cachedExpenseForm d1 t1]) gid [cachedExpenseForm d1 t1, cachedExpenseForm d2 t2] from rfl]
    rw [lookup_setAssoc_self]
    rfl
  · intro s c i d now hg he hu
    exact ⟨cacheDocument_unknown s c i d now hg he hu,
           getCachedDocument_unknown s c i hg he hu⟩

/-- The empty available store used to witness Claim 9. -/
def c9Store : Storage :=
  { available := true, offlineData := emptyOfflineData, queue := [],
    lastSyncItem := none }

/-- Witness for `C9_cache_roundtrip` at concrete payloads in the empty
store: group round-trip, user overwrite, expense list append/replace, and
the unknown collection "settings". -/
theorem C9_cache_roundtrip_witness :
    (c9Store.cacheDocument "groups" "g1" [("name", JVal.str "A")] 5).getCachedDocument "groups" "g1" =
      some (JVal.obj (cachedForm [("name", JVal.str "A")] "g1" 5)) ∧
    ((c9Store.cacheDocument "users" "u1" [("name", JVal.str "A")] 1).cacheDocument "users" "u1" [("name", JVal.str "B")] 2).getCachedDocument "users" "u1" =
      some (JVal.obj (cachedForm [("name", JVal.str "B")] "u1" 2)) ∧
    (c9Store.cacheDocument "expenses" "grp" [("id", JVal.str "e1")] 3).getCachedDocument "expenses" "grp" =
      some (JVal.arr [JVal.obj (cachedExpenseForm [("id", JVal.str "e1")] 3)]) ∧
    ((c9Store.cacheDocument "expenses" "grp" [("id", JVal.str "e1")] 3).cacheDocument "expenses" "grp" [("id", JVal.str "e1"), ("x", JVal.num 2)] 4).getCachedDocument "expenses" "grp" =
      some (JVal.arr [JVal.obj (cachedExpenseForm [("id", JVal.str "e1"), ("x", JVal.num 2)] 4)]) ∧
    ((c9Store.cacheDocument "expenses" "grp" [("id", JVal.str "e1")] 3).cacheDocument "expenses" "grp" [("id", JVal.str "e2")] 4).getCachedDocument "expenses" "grp" =
      some (JVal.arr [JVal.obj (cachedExpenseForm [("id", JVal.str "e1")] 3),
                      JVal.obj (cachedExpenseForm [("id", JVal.str "e2")] 4)]) ∧
    c9Store.cacheDocument "settings" "s1" [("x", JVal.num 1)] 5 = c9Store ∧
    c9Store.getCachedDocument "settings" "s1" = none := by
  obtain ⟨p7a, p7b⟩ := C9_cache_roundtrip.2.2.2.2.2.2 c9Store "settings" "s1"
    [("x", JVal.num 1)] 5 (by decide) (by decide) (by decide)
  refine ⟨?_, ?_, ?_, ?_, ?_, p7a, p7b⟩
  · exact C9_cache_roundtrip.1 c9Store "groups" "g1" [("name", JVal.str "A")] 5
      rfl (Or.inl rfl)
  · exact C9_cache_roundtrip.2.1 c9Store "users" "u1" [("name", JVal.str "A")]
      [("name", JVal.str "B")] 1 2 rfl (Or.inr rfl)
  · exact C9_cache_roundtrip.2.2.2.1 c9Store "grp" [("id", JVal.str "e1")] 3
      rfl rfl
  · exact C9_cache_roundtrip.2.2.2.2.1 c9Store "grp" [("id", JVal.str "e1")]
      [("id", JVal.str "e1"), ("x", JVal.num 2)] 3 4 rfl rfl rfl
  · exact C9_cache_roundtrip.2.2.2.2.2.1 c9Store "grp" [("id", JVal.str "e1")]
      [("id", JVal.str "e2")] 3 4 rfl rfl rfl

/-- Claim C5 counterexample context: empty available store, offline. -/
def c5Ctx : SysState :=
  { storage := c9Store,
    remote := { docs := [], nextId := 0, online := true, log := [] },
    isSyncing := false }

/-- Claim C5 counterexample run: an offline create on the collection
"settings" (not one of the three cached collections). -/
def c5Created : String × SysState :=
  createDocument c5Ctx false "settings" [("amount", JVal.num 50)] 100 "tok" "op1"

/-- Claim C5, counterexample: after an offline `createDocument` on the
collection "settings", the immediate read of the returned temporary id
yields `null`, not the created payload — `cacheDocument` ignores collections
other than groups/expenses/users, so the temporary id does not resolve
locally. -/
theorem C5_counterexample :
    c5Created.1 = tempIdOf 100 "tok" ∧
    (getDocument c5Created.2 false "settings" c5Created.1 101).1 = none := by
  exact ⟨rfl, rfl⟩

/-- The metadata spread over the payload by the offline create path:
`\x7b...data, id: tempId, createdAt: iso, _isOffline: true\x7d`. -/
def offlineCreateMeta (tid : String) (now : Int) : JObj :=
  [("id", JVal.str tid), ("createdAt", JVal.str (isoOf now)),
   ("_isOffline", JVal.boolVal true)]

/-- Claim C5, amended: after an offline `createDocument(collection, payload)`
the call returns the temporary id without touching the remote store, and an
immediate offline read of that id is cache-only (state unchanged).  What it
returns is collection-dependent: for "groups" and "users" it is the created
payload object (payload fields preserved, plus the id, createdAt,
_isOffline and _cachedAt markers); for "expenses" it is the one-element list
holding the payload (the temporary id acts as a group key); for every other
collection it is `null` — the payload does not resolve locally. -/
theorem C5_offline_create_read (st : SysState) (c : String) (d : JObj)
    (now t2 : Int) (tok opId : String)
    (hav : st.storage.available = true)
    (hc : c = "groups" ∨ c = "users") :
    (createDocument st false c d now tok opId).1 = tempIdOf now tok ∧
    (createDocument st false c d now tok opId).2.remote = st.remote ∧
    (getDocument (createDocument st false c d now tok opId).2 false c (tempIdOf now tok) t2).1 =
      some (JVal.obj (cachedForm (spreadObj d (offlineCreateMeta (tempIdOf now tok) now)) (tempIdOf now tok) now)) ∧
    (getDocument (createDocument st false c d now tok opId).2 false c (tempIdOf now tok) t2).2 =
      (createDocument st false c d now tok opId).2 ∧
    (∀ k : String, k ≠ "id" → k ≠ "createdAt" → k ≠ "_isOffline" → k ≠ "_cachedAt" →
      (cachedForm (spreadObj d (offlineCreateMeta (tempIdOf now tok) now)) (tempIdOf now tok) now).lookup k = d.lookup k) ∧
    (∀ c2 : String, c2 ≠ "groups" → c2 ≠ "expenses" → c2 ≠ "users" →
      (getDocument (createDocument st false c2 d now tok opId).2 false c2 (tempIdOf now tok) t2).1 = none) ∧
    (st.storage.offlineData.expenses.lookup (tempIdOf now tok) = none →
      (getDocument (createDocument st false "expenses" d now tok opId).2 false "expenses" (tempIdOf now tok) t2).1 =
        some (JVal.arr [JVal.obj (cachedExpenseForm (spreadObj d (offlineCreateMeta (tempIdOf now tok) now)) now)])) := by
  refine ⟨rfl, rfl, ?_, rfl, ?_, ?_, ?_⟩
  · have e : (getDocument (createDocument st false c d now tok opId).2 false c (tempIdOf now tok) t2).1 =
        ((st.storage.cacheDocument c (tempIdOf now tok) (spreadObj d (offlineCreateMeta (tempIdOf now tok) now)) now).addToQueue OpType.create c none (some (spreadObj d [("createdAt", JVal.str (isoOf now))])) opId now).getCachedDocument c (tempIdOf now tok) := rfl
    rw [e, getCachedDocument_def2, addToQueue_available, addToQueue_offlineData,
      ← getCachedDocument_def2]
    exact cache_get_groups_users st.storage c (tempIdOf now tok)
      (spreadObj d (offlineCreateMeta (tempIdOf now tok) now)) now hav hc
  · intro k hk1 hk2 hk3 hk4
    rw [cachedForm_lookup_other _ _ _ k hk1 hk4]
    unfold offlineCreateMeta
    rw [lookup_spreadObj_not_mem _ _ k
      (by simp [Ne.symm hk1, Ne.symm hk2, Ne.symm hk3])]
  · intro c2 hg he hu
    have e : (getDocument (createDocument st false c2 d now tok opId).2 false c2 (tempIdOf now tok) t2).1 =
        ((st.storage.cacheDocument c2 (tempIdOf now tok) (spreadObj d (offlineCreateMeta (tempIdOf now tok) now)) now).addToQueue OpType.create c2 none (some (spreadObj d [("createdAt", JVal.str (isoOf now))])) opId now).getCachedDocument c2 (tempIdOf now tok) := rfl
    rw [e, getCachedDocument_def2, addToQueue_available, addToQueue_offlineData,
      ← getCachedDocument_def2,
      cacheDocument_unknown st.storage c2 (tempIdOf now tok) _ now hg he hu,
      getCachedDocument_unknown st.storage c2 (tempIdOf now tok) hg he hu]
  · intro hnone
    have e : (getDocument (createDocument st false "expenses" d now tok opId).2 false "expenses" (tempIdOf now tok) t2).1 =
        ((st.storage.cacheDocument "expenses" (tempIdOf now tok) (spreadObj d (offlineCreateMeta (tempIdOf now tok) now)) now).addToQueue OpType.create "expenses" none (some (spreadObj d [("createdAt", JVal.str (isoOf now))])) opId now).getCachedDocument "expenses" (tempIdOf now tok) := rfl
    rw [e, getCachedDocument_def2, addToQueue_available, addToQueue_offlineData,
      ← getCachedDocument_def2]
    exact cache_get_expenses_fresh st.storage (tempIdOf now tok)
      (spreadObj d (offlineCreateMeta (tempIdOf now tok) now)) now hav hnone

/-- Witness for `C5_offline_create_read` at a concrete offline create of a
group payload. -/
theorem C5_offline_create_read_witness :
    (createDocument c5Ctx false "groups" [("amount", JVal.num 50)] 100 "tk" "op1").1 =
      tempIdOf 100 "tk" ∧
    (createDocument c5Ctx false "groups" [("amount", JVal.num 50)] 100 "tk" "op1").2.remote =
      c5Ctx.remote ∧
    (getDocument (createDocument c5Ctx false "groups" [("amount", JVal.num 50)] 100 "tk" "op1").2 false "groups" (tempIdOf 100 "tk") 101).1 =
      some (JVal.obj (cachedForm (spreadObj [("amount", JVal.num 50)] (offlineCreateMeta (tempIdOf 100 "tk") 100)) (tempIdOf 100 "tk") 100)) ∧
    (cachedForm (spreadObj [("amount", JVal.num 50)] (offlineCreateMeta (tempIdOf 100 "tk") 100)) (tempIdOf 100 "tk") 100).lookup "amount" =
      some (JVal.num 50) := by
  obtain ⟨h1, h2, h3, h4, h5, h6, h7⟩ :=
    C5_offline_create_read c5Ctx "groups" [("amount", JVal.num 50)] 100 101
      "tk" "op1" rfl (Or.inl rfl)
  refine ⟨h1, h2, h3, ?_⟩
  rw [h5 "amount" (by decide) (by decide) (by decide) (by decide)]
  rfl

/-- The arguments of one facade `addToQueue` call, used to describe a
sequence of enqueues. -/
structure EnqueueSpec where
  type : OpType
  collection : String
  documentId : Option String
  data : Option JObj
  opId : String
  time : Int

/-- The queued operation an enqueue produces (`retryCount` starts at 0). -/
def mkOp (e : EnqueueSpec) : OfflineOperation :=
  { id := e.opId, type := e.type, collection := e.collection,
    documentId := e.documentId, data := e.data, timestamp := e.time,
    retryCount := 0 }

/-- Performs a sequence of `addToQueue` calls. -/
def enqueueAll (s : Storage) : List EnqueueSpec → Storage
  | [] => s
  | e :: es =>
    enqueueAll (s.addToQueue e.type e.collection e.documentId e.data e.opId e.time) es

theorem addToQueue_avail (s : Storage) (t : OpType) (c : String)
    (docId : Option String) (d : Option JObj) (opId : String) (now : Int)
    (hav : s.available = true) :
    s.addToQueue t c docId d opId now =
      { s with queue := s.queue ++
          [{ id := opId, type := t, collection := c, documentId := docId,
             data := d, timestamp := now, retryCount := 0 }] } := by
  unfold Storage.addToQueue Storage.getOperationQueue
  rw [if_pos hav, if_pos hav]

theorem enqueueAll_avail (es : List EnqueueSpec) (s : Storage)
    (hav : s.available = true) :
    enqueueAll s es = { s with queue := s.queue ++ es.map mkOp } := by
  induction es generalizing s with
  | nil =>
    show s = { s with queue := s.queue ++ [] }
    simp
  | cons e es ih =>
    show enqueueAll (s.addToQueue e.type e.collection e.documentId e.data e.opId e.time) es = _
    have haq : s.addToQueue e.type e.collection e.documentId e.data e.opId e.time =
        { s with queue := s.queue ++ [mkOp e] } := by
      rw [addToQueue_avail s e.type e.collection e.documentId e.data e.opId e.time hav]
      rfl
    rw [haq]
    rw [ih ({ s with queue := s.queue ++ [mkOp e] }) hav]
    have happ : (s.queue ++ [mkOp e]) ++ es.map mkOp = s.queue ++ mkOp e :: es.map mkOp := by
      simp
    show ({ s with queue := (s.queue ++ [mkOp e]) ++ es.map mkOp } : Storage) = _
    rw [happ]
    rfl

/-- An operation the remote store can certainly apply: a create carries its
data; an update or delete carries a document id whose target is present
remotely. -/
def wellFormedOp (op : OfflineOperation) (r : Remote) : Bool :=
  match op.type with
  | OpType.create => op.data.isSome
  | OpType.update =>
    match op.documentId with
    | some i => (r.docs.lookup (op.collection, i)).isSome
    | none => false
  | OpType.delete =>
    match op.documentId with
    | some i => (r.docs.lookup (op.collection, i)).isSome
    | none => false

/-- The remote document an update or delete operation addresses. -/
def opTarget (op : OfflineOperation) : Option (String × String) :=
  match op.type with
  | OpType.create => none
  | OpType.update => op.documentId.map (fun i => (op.collection, i))
  | OpType.delete => op.documentId.map (fun i => (op.collection, i))

/-- Two operations address different remote documents (creates address
none). -/
def targetsDiffer (a b : OfflineOperation) : Bool :=
  match opTarget a, opTarget b with
  | some t1, some t2 => decide (t1 ≠ t2)
  | _, _ => true

/-- The remote calls one successfully applied operation makes, in order:
create → `addDoc`; update → existence `getDoc` then `updateDoc`; delete →
existence `getDoc` then `deleteDoc`. -/
def successCalls (op : OfflineOperation) : List RemoteCall :=
  match op.type with
  | OpType.create => [RemoteCall.add op.collection (op.data.getD [])]
  | OpType.update =>
    [RemoteCall.get op.collection (op.documentId.getD ""),
     RemoteCall.upd op.collection (op.documentId.getD "") (op.data.getD [])]
  | OpType.delete =>
    [RemoteCall.get op.collection (op.documentId.getD ""),
     RemoteCall.del op.collection (op.documentId.getD "")]

theorem processOperation_success (now : Int) (op : OfflineOperation)
    (s : Storage) (r : Remote)
    (hon : r.online = true) (hwf : wellFormedOp op r = true) :
    ∃ s1 r1, processOperation now op s r = (true, s1, r1) ∧
      r1.log = r.log ++ successCalls op ∧
      r1.online = true ∧
      s1.queue = s.queue ∧ s1.available = s.available ∧
      ∀ k : String × String, (r.docs.lookup k).isSome = true →
        (op.type = OpType.delete → opTarget op ≠ some k) →
        (r1.docs.lookup k).isSome = true := by
  rcases op with ⟨oid, ty, c, docId, dat, ts, rc⟩
  cases ty
  case create =>
    cases dat with
    | none => simp [wellFormedOp] at hwf
    | some d =>
      have hadd : Remote.addDoc r c d =
          (some ("remote_" ++ toString r.nextId), { r with log := r.log ++ [RemoteCall.add c d], docs := setAssoc r.docs (c, "remote_" ++ toString r.nextId) d, nextId := r.nextId + 1 }) := by
        unfold Remote.addDoc
        rw [if_pos hon]
      simp only [processOperation, processCreateOperation, hadd]
      refine ⟨_, _, rfl, ?_, hon, ?_, ?_, ?_⟩
      · simp [successCalls]
      · exact cacheDocument_queue _ _ _ _ _
      · exact cacheDocument_available _ _ _ _ _
      · intro k hk _
        exact lookup_setAssoc_isSome _ _ _ _ hk
  case update =>
    cases docId with
    | none => simp [wellFormedOp] at hwf
    | some i =>
      simp only [wellFormedOp] at hwf
      obtain ⟨d0, hd0⟩ := Option.isSome_iff_exists.mp hwf
      have hgd : Remote.getDoc r c i =
          (some (some d0), { r with log := r.log ++ [RemoteCall.get c i] }) := by
        unfold Remote.getDoc
        rw [if_pos hon, hd0]
      have hud : Remote.updateDoc { r with log := r.log ++ [RemoteCall.get c i] } c i (dat.getD []) =
          (some (), { r with log := (r.log ++ [RemoteCall.get c i]) ++ [RemoteCall.upd c i (dat.getD [])], docs := setAssoc r.docs (c, i) (spreadObj d0 (dat.getD [])) }) := by
        unfold Remote.updateDoc
        rw [if_pos hon]
        rw [show ({ r with log := r.log ++ [RemoteCall.get c i] } : Remote).docs = r.docs from rfl]
        rw [hd0]
      simp only [processOperation, processUpdateOperation, hgd, hud]
      cases dat with
      | none =>
        refine ⟨_, _, rfl, ?_, hon, rfl, rfl, ?_⟩
        · simp [successCalls]
        · intro k hk _
          exact lookup_setAssoc_isSome _ _ _ _ hk
      | some d =>
        cases hc : s.getCachedDocument c i with
        | none =>
          refine ⟨_, _, rfl, ?_, hon, rfl, rfl, ?_⟩
          · simp [successCalls]
          · intro k hk _
            exact lookup_setAssoc_isSome _ _ _ _ hk
        | some cached =>
          refine ⟨_, _, rfl, ?_, hon, ?_, ?_, ?_⟩
          · simp [successCalls]
          · exact cacheDocument_queue _ _ _ _ _
          · exact cacheDocument_available _ _ _ _ _
          · intro k hk _
            exact lookup_setAssoc_isSome _ _ _ _ hk
  case delete =>
    cases docId with
    | none => simp [wellFormedOp] at hwf
    | some i =>
      simp only [wellFormedOp] at hwf
      obtain ⟨d0, hd0⟩ := Option.isSome_iff_exists.mp hwf
      have hgd : Remote.getDoc r c i =
          (some (some d0), { r with log := r.log ++ [RemoteCall.get c i] }) := by
        unfold Remote.getDoc
        rw [if_pos hon, hd0]
      have hdd : Remote.deleteDoc { r with log := r.log ++ [RemoteCall.get c i] } c i =
          (some (), { r with log := (r.log ++ [RemoteCall.get c i]) ++ [RemoteCall.del c i], docs := removeAssoc r.docs (c, i) }) := by
        unfold Remote.deleteDoc
        rw [if_pos hon]
      simp only [processOperation, processDeleteOperation, hgd, hdd]
      refine ⟨_, _, rfl, ?_, hon, ?_, ?_, ?_⟩
      · simp [successCalls]
      · exact removeCachedDocument_queue _ _ _
      · exact removeCachedDocument_available _ _ _
      · intro k hk himp
        have hne : k ≠ (c, i) := by
          intro hkci
          exact himp (by trivial) (by simp [opTarget, hkci])
        rw [lookup_removeAssoc_ne r.docs (c, i) k hne]
        exact hk

theorem removeFromQueue_queue_avail (s : Storage) (j : String)
    (hav : s.available = true) :
    (s.removeFromQueue j).queue = s.queue.filter (fun e => !(e.id == j)) := by
  unfold Storage.removeFromQueue Storage.getOperationQueue
  rw [if_pos hav, if_pos hav]

/-- Removing, in order, every listed operation id from a stored queue. -/
def removeIds (ids : List String) (q : List OfflineOperation) :
    List OfflineOperation :=
  ids.foldl (fun acc j => acc.filter (fun e => !(e.id == j))) q

theorem removeIds_all_mem (ids : List String) (q : List OfflineOperation)
    (h : ∀ e ∈ q, e.id ∈ ids) : removeIds ids q = [] := by
  induction ids generalizing q with
  | nil =>
    cases q with
    | nil => rfl
    | cons a q => exact absurd (h a (List.mem_cons_self a q)) (List.not_mem_nil a.id)
  | cons j ids ih =>
    show removeIds ids (q.filter (fun e => !(e.id == j))) = []
    apply ih
    intro e he
    obtain ⟨heq, hne⟩ := List.mem_filter.mp he
    have hmem := h e heq
    cases List.mem_cons.mp hmem with
    | inl hj =>
      rw [hj] at hne
      simp at hne
    | inr ht => exact ht

theorem syncLoop_success (now : Int) (Q : List OfflineOperation)
    (s : Storage) (r : Remote) (sc ec : Nat)
    (hav : s.available = true) (hon : r.online = true)
    (hwf : ∀ op2 ∈ Q, wellFormedOp op2 r = true)
    (hpw : List.Pairwise (fun a b => targetsDiffer a b = true) Q) :
    ∃ sf rf, syncLoop now Q s r sc ec = (sf, rf, sc + Q.length, ec) ∧
      sf.queue = removeIds (Q.map OfflineOperation.id) s.queue ∧
      sf.available = true ∧
      rf.log = r.log ++ Q.flatMap successCalls ∧ rf.online = true := by
  induction Q generalizing s r sc ec with
  | nil =>
    refine ⟨s, r, by simp [syncLoop], rfl, hav, by simp, hon⟩
  | cons op rest ih =>
    obtain ⟨s1, r1, hps, hlog1, hon1, hq1, hav1, hpres⟩ :=
      processOperation_success now op s r hon (hwf op (List.mem_cons_self op rest))
    obtain ⟨hpwhead, hpwrest⟩ := List.pairwise_cons.mp hpw
    have hwfrest : ∀ op2 ∈ rest, wellFormedOp op2 r1 = true := by
      intro op2 hmem
      have hw2 := hwf op2 (List.mem_cons_of_mem op hmem)
      have hdiff := hpwhead op2 hmem
      rcases op2 with ⟨oid2, ty2, c2, docId2, dat2, ts2, rc2⟩
      cases ty2 with
      | create =>
        simp only [wellFormedOp] at hw2 ⊢
        exact hw2
      | update =>
        cases docId2 with
        | none => simp [wellFormedOp] at hw2
        | some i2 =>
          simp only [wellFormedOp] at hw2 ⊢
          apply hpres (c2, i2) hw2
          intro _ heq
          have ht2 : opTarget ⟨oid2, OpType.update, c2, some i2, dat2, ts2, rc2⟩ =
              some (c2, i2) := by
            simp [opTarget]
          unfold targetsDiffer at hdiff
          rw [heq, ht2] at hdiff
          simp at hdiff
      | delete =>
        cases docId2 with
        | none => simp [wellFormedOp] at hw2
        | some i2 =>
          simp only [wellFormedOp] at hw2 ⊢
          apply hpres (c2, i2) hw2
          intro _ heq
          have ht2 : opTarget ⟨oid2, OpType.delete, c2, some i2, dat2, ts2, rc2⟩ =
              some (c2, i2) := by
            simp [opTarget]
          unfold targetsDiffer at hdiff
          rw [heq, ht2] at hdiff
          simp at hdiff
    have hav1t : s1.available = true := by
      rw [hav1]
      exact hav
    have havrm : (s1.removeFromQueue op.id).available = true := by
      rw [removeFromQueue_available]
      exact hav1t
    obtain ⟨sf, rf, hloop, hqf, havf, hlogf, honf⟩ :=
      ih (s1.removeFromQueue op.id) r1 (sc + 1) ec havrm hon1 hwfrest hpwrest
    refine ⟨sf, rf, ?_, ?_, havf, ?_, honf⟩
    · simp only [syncLoop, hps]
      rw [hloop]
      have harith : sc + 1 + rest.length = sc + (rest.length + 1) := by omega
      rw [harith]
      rfl
    · rw [hqf]
      rw [removeFromQueue_queue_avail s1 op.id hav1t, hq1]
      rfl
    · rw [hlogf, hlog1]
      simp [List.append_assoc]

/-- Claim C4: FIFO drain.  For any sequence of enqueue calls followed by one
sync pass in which every remote application succeeds (realised here by: the
remote store reachable, every create carrying data, every update/delete
addressing a remotely present document, and the addressed documents pairwise
distinct), the queue holds the operations in exactly the order they were
enqueued, the pass applies all of them with no failures and empties the
queue, and the remote store receives the calls of the N operations as the
concatenation of each operation's calls in exactly the enqueue order —
in particular operation N+1's calls all come after operation N's, so N+1 is
not attempted before N's outcome is known. -/
theorem C4_fifo_drain (st : SysState) (es : List EnqueueSpec) (now : Int)
    (h1 : st.isSyncing = false) (h2 : st.storage.available = true)
    (h3 : st.storage.queue = []) (h4 : es ≠ [])
    (h5 : st.remote.online = true)
    (h6 : ∀ e ∈ es, wellFormedOp (mkOp e) st.remote = true)
    (h7 : List.Pairwise (fun a b => targetsDiffer (mkOp a) (mkOp b) = true) es) :
    (enqueueAll st.storage es).queue = es.map mkOp ∧
    (syncOfflineOperations { st with storage := enqueueAll st.storage es } now).2.1 = es.length ∧
    (syncOfflineOperations { st with storage := enqueueAll st.storage es } now).2.2 = 0 ∧
    (syncOfflineOperations { st with storage := enqueueAll st.storage es } now).1.storage.queue = [] ∧
    (syncOfflineOperations { st with storage := enqueueAll st.storage es } now).1.remote.log =
      st.remote.log ++ (es.map mkOp).flatMap successCalls := by
  have henq : enqueueAll st.storage es = { st.storage with queue := es.map mkOp } := by
    rw [enqueueAll_avail es st.storage h2, h3]
    rw [List.nil_append]
  have hwfmap : ∀ op2 ∈ es.map mkOp, wellFormedOp op2 st.remote = true := by
    intro op2 hm
    obtain ⟨e, he, rfl⟩ := List.mem_map.mp hm
    exact h6 e he
  have hpwmap : List.Pairwise (fun a b => targetsDiffer a b = true) (es.map mkOp) :=
    List.pairwise_map.mpr h7
  obtain ⟨sf, rf, hloop, hqf, havf, hlogf, honf⟩ :=
    syncLoop_success now (es.map mkOp) ({ st.storage with queue := es.map mkOp })
      st.remote 0 0 h2 h5 hwfmap hpwmap
  have hqf2 : sf.queue = [] := by
    rw [hqf]
    rw [show ({ st.storage with queue := es.map mkOp } : Storage).queue = es.map mkOp from rfl]
    exact removeIds_all_mem _ _ (fun e he => List.mem_map_of_mem OfflineOperation.id he)
  have hq : ({ st with storage := { st.storage with queue := es.map mkOp } } : SysState).storage.getOperationQueue = es.map mkOp := by
    unfold Storage.getOperationQueue
    rw [if_pos h2]
  have hne : (es.map mkOp).isEmpty = false := by
    cases hes : es.map mkOp with
    | nil => exact absurd (by simpa using hes) h4
    | cons a l => rfl
  have hpass : syncOfflineOperations { st with storage := { st.storage with queue := es.map mkOp } } now =
      ({ storage := sf.setLastSync now, remote := rf, isSyncing := false },
       0 + (es.map mkOp).length, 0) := by
    simp only [syncOfflineOperations, h1, Bool.false_eq_true, if_false, hq, hne, hloop]
  rw [henq]
  refine ⟨rfl, ?_, ?_, ?_, ?_⟩
  · rw [hpass]
    simp
  · rw [hpass]
  · rw [hpass]
    show (sf.setLastSync now).queue = []
    rw [setLastSync_queue, hqf2]
  · rw [hpass]
    exact hlogf

/-- The remote store used to witness Claim 4: both targeted documents are
present. -/
def c4Remote : Remote :=
  { docs := [(("groups", "g1"), [("name", JVal.str "Old")]),
             (("groups", "g2"), [("name", JVal.str "Del")])],
    nextId := 0, online := true, log := [] }

/-- Starting state for the Claim 4 witness. -/
def c4State : SysState :=
  { storage := c9Store, remote := c4Remote, isSyncing := false }

/-- The three enqueued operations of the Claim 4 witness: a create, an
update of `groups/g1` and a delete of `groups/g2`. -/
def c4Specs : List EnqueueSpec :=
  [{ type := OpType.create, collection := "expenses", documentId := none,
     data := some [("amount", JVal.num 50)], opId := "a1", time := 1 },
   { type := OpType.update, collection := "groups", documentId := some "g1",
     data := some [("name", JVal.str "New")], opId := "a2", time := 2 },
   { type := OpType.delete, collection := "groups", documentId := some "g2",
     data := none, opId := "a3", time := 3 }]

/-- Witness for `C4_fifo_drain` at the concrete three-operation scenario. -/
theorem C4_fifo_drain_witness :
    (enqueueAll c4State.storage c4Specs).queue = c4Specs.map mkOp ∧
    (syncOfflineOperations { c4State with storage := enqueueAll c4State.storage c4Specs } 9).2.1 = c4Specs.length ∧
    (syncOfflineOperations { c4State with storage := enqueueAll c4State.storage c4Specs } 9).2.2 = 0 ∧
    (syncOfflineOperations { c4State with storage := enqueueAll c4State.storage c4Specs } 9).1.storage.queue = [] ∧
    (syncOfflineOperations { c4State with storage := enqueueAll c4State.storage c4Specs } 9).1.remote.log =
      c4State.remote.log ++ (c4Specs.map mkOp).flatMap successCalls := by
  exact C4_fifo_drain c4State c4Specs 9 rfl rfl rfl
    (fun h => List.noConfusion h) rfl (by decide) (by decide)
